import Mathlib

/-!
Verification development for the `ultimate-control` desktop control panel.

Part 1 embeds the WiFi device manager (`WifiManager::Impl` in the
repository's WifiManager implementation file): the network record, the
nmcli scan-output parser, and the state transformers `scan_networks`,
`enable_wifi`, `disable_wifi`, `connect`, `disconnect`, together with the
event trace each of them produces (external command executions, callback
invocations, log output, synchronous sleeps).

Part 2 embeds the tab-lifecycle orchestrator of `MainWindow` (main.cpp):
per-tab loading state (`TabInfo`), the scheduled-continuation queue that
stands for the Glib timeout callbacks, and the handlers
`switch_to_tab`, the tab-label click handler, `on_tab_switch`,
`show_loading_indicator`, `load_tab_content_async`, `create_tab_content`.

Modelling conventions, stated once:
* Machine integers are `Int`/`Nat`; the only place overflow matters is
  `std::stoi`, whose out-of-range exception is modelled explicitly.
* `popen`/`std::system` results are inputs of the transformers
  (`PipeResult`, an `Int` exit status): the external world is an oracle.
* A GTK `set_current_page` on a page different from the current one emits
  the `switch-page` signal synchronously, so the model runs
  `on_tab_switch` inside `switch_to_tab` and inside the label-click
  handler before their own load checks, exactly as GTK does.  Signal
  emissions caused by `remove_page`/`insert_page` inside the two loader
  functions are neutralised in the source by the function-local static
  guard and by the `get_current_page() != new_page_num` checks, and are
  not modelled as re-entry.
* The panel factory (`Gtk::make_managed<...Tab>()`) may throw; each fired
  construction carries an `Option String` outcome (`some msg` = throw).
  Plain gtkmm notebook calls are modelled as non-throwing.
-/

namespace UltimateControl

/-- One scanned WiFi network (struct `Network` in WifiManager.hpp). -/
structure Network where
  ssid : String
  bssid : String
  signal_strength : Int
  connected : Bool
  secured : Bool
deriving DecidableEq

/-- The helper `WifiManager::Impl::split`: cut a character list at every
occurrence of the delimiter; like the C++ loop it always produces one
final (possibly empty) token. -/
def split : List Char → Char → List (List Char)
  | [], _ => [[]]
  | c :: rest, d =>
    if c = d then [] :: split rest d
    else
      match split rest d with
      | [] => [[c]]
      | t :: ts => (c :: t) :: ts

/-- The scan loop of `scan_networks` processes only the text before each
newline character; a final fragment not terminated by a newline is left
in `result` and discarded when the loop exits. -/
def scanLines : List Char → List (List Char)
  | [] => []
  | c :: rest =>
    if c = '\n' then [] :: scanLines rest
    else
      match scanLines rest with
      | [] => []
      | l :: ls => (c :: l) :: ls

/-- Character-class test used by `std::stoi` for leading-whitespace
skipping. -/
def stoiSpace (c : Char) : Bool :=
  c = ' ' || c = '\t' || c = '\n' || c = Char.ofNat 11 || c = Char.ofNat 12 || c = '\r'

/-- Decimal value of a digit string. -/
def digitsToNat (ds : List Char) : Nat :=
  ds.foldl (fun a c => a * 10 + (c.toNat - 48)) 0

/-- Behaviour of `std::stoi(tokens[2])` under the surrounding
`try ... catch (...) { net.signal_strength = 0; }`: whitespace and an
optional sign are skipped, the leading digit run is converted, and both
`invalid_argument` (no digits) and `out_of_range` (outside 32-bit `int`)
land in the catch-all, which stores 0. -/
def stoiOrZero (cs : List Char) : Int :=
  let cs1 := cs.dropWhile stoiSpace
  let signed : Int × List Char :=
    match cs1 with
    | '-' :: r => (-1, r)
    | '+' :: r => (1, r)
    | r => (1, r)
  let ds := signed.2.takeWhile Char.isDigit
  if ds = [] then 0
  else
    let v : Int := signed.1 * (digitsToNat ds : Int)
    if v < -2147483648 || 2147483647 < v then 0 else v

/-- Parsing of one scan line: split on the colon, require at least four
fields, and build the `Network` record exactly as the loop body does.
Lines with fewer than four fields contribute nothing. -/
def parseLine (line : List Char) : Option Network :=
  let tokens := split line ':'
  if 4 ≤ tokens.length then
    some
      { ssid := String.mk (tokens.getD 1 [])
        bssid := ""
        signal_strength := stoiOrZero (tokens.getD 2 [])
        connected := tokens.getD 0 [] = ['*']
        secured := tokens.getD 3 [] ≠ ['-', '-'] ∧ tokens.getD 3 [] ≠ [] }
  else none

/-- Full parse of the captured nmcli output: networks of all complete
lines, in order. -/
def parseScanOutput (out : List Char) : List Network :=
  (scanLines out).filterMap parseLine

/-- Result of one `popen` capture: either the pipe could not be opened,
or the command ran, produced text, and `pclose` reported an exit status
(which `scan_networks` never inspects). -/
inductive PipeResult where
  | fail
  | ok (exitCode : Int) (output : List Char)
deriving DecidableEq

/-- Manager state: the stored network list, the enabled flag, and whether
the two observer callbacks have been registered. -/
structure WifiState where
  networks : List Network
  wifi_enabled : Bool
  hasUpdateCb : Bool
  hasStateCb : Bool
deriving DecidableEq

/-- Observable events of one manager operation, in program order:
external command executions (`popen`/`std::system`), the two observer
callbacks, diagnostic output, modal dialogs, and synchronous sleeps. -/
inductive Ev where
  | cmd (c : String)
  | update (nets : List Network)
  | stateCb (enabled : Bool)
  | err (msg : String)
  | info (msg : String)
  | dialog (msg : String)
  | sleepMicros (n : Nat)
deriving DecidableEq

/-- The scan command string. -/
def scanCmd : String := "nmcli -t -f IN-USE,SSID,SIGNAL,SECURITY device wifi list"

/-- `WifiManager::Impl::scan_networks`.  Disabled radio: clear the list
and fire the update callback.  Enabled: clear the list, run the scan
command; a failed `popen` leaves the (already cleared) list and prints a
diagnostic; otherwise every complete output line is parsed and the update
callback receives the new list.  The `pclose` status is ignored. -/
def scan_networks (st : WifiState) (pr : PipeResult) : WifiState × List Ev :=
  if st.wifi_enabled = false then
    ({ st with networks := [] },
     if st.hasUpdateCb then [Ev.update []] else [])
  else
    match pr with
    | PipeResult.fail =>
        ({ st with networks := [] },
         [Ev.cmd scanCmd, Ev.err "Failed to run nmcli"])
    | PipeResult.ok _ out =>
        let nets := parseScanOutput out
        ({ st with networks := nets },
         Ev.cmd scanCmd :: (if st.hasUpdateCb then [Ev.update nets] else []))

/-- `WifiManager::Impl::enable_wifi`: run `nmcli radio wifi on`; only on
exit status 0 set the flag, fire the state callback and scan. -/
def enable_wifi (st : WifiState) (ret : Int) (scanPr : PipeResult) :
    WifiState × List Ev :=
  if ret = 0 then
    let st1 := { st with wifi_enabled := true }
    let scanned := scan_networks st1 scanPr
    (scanned.1,
     Ev.cmd "nmcli radio wifi on"
       :: ((if st.hasStateCb then [Ev.stateCb true] else []) ++ scanned.2))
  else (st, [Ev.cmd "nmcli radio wifi on"])

/-- `WifiManager::Impl::disable_wifi`: run `nmcli radio wifi off`; only
on exit status 0 clear the flag, fire the state callback, clear the list
and fire the update callback. -/
def disable_wifi (st : WifiState) (ret : Int) : WifiState × List Ev :=
  if ret = 0 then
    ({ st with wifi_enabled := false, networks := [] },
     Ev.cmd "nmcli radio wifi off"
       :: ((if st.hasStateCb then [Ev.stateCb false] else [])
            ++ (if st.hasUpdateCb then [Ev.update []] else [])))
  else (st, [Ev.cmd "nmcli radio wifi off"])

/-- Whitespace trimmed by the `result.erase(...)` pair in the helpers. -/
def trimWs (c : Char) : Bool :=
  c = ' ' || c = '\t' || c = '\n' || c = '\r'

/-- Trim leading and trailing whitespace, as the two `erase` calls do. -/
def trim (cs : List Char) : List Char :=
  ((cs.dropWhile trimWs).reverse.dropWhile trimWs).reverse

/-- The pipeline used by `get_wifi_interface` to find the WiFi device. -/
def ifaceCmd : String :=
  "nmcli device status | grep wifi | grep -v p2p | awk \x27\x7bprint $1\x7d\x27"

/-- `WifiManager::Impl::get_wifi_interface`: run the pipeline, read one
line with `fgets`, trim whitespace; a failed `popen` yields the empty
string.  Returns the interface name and the command-execution event. -/
def get_wifi_interface (pr : PipeResult) : String × List Ev :=
  match pr with
  | PipeResult.fail => ("", [Ev.cmd ifaceCmd])
  | PipeResult.ok _ out =>
      (String.mk (trim (out.takeWhile (fun c => c ≠ '\n'))), [Ev.cmd ifaceCmd])

/-- Command deleting an existing connection profile before re-creating it. -/
def deleteCmd (ssid : String) : String :=
  "nmcli con delete \"" ++ ssid ++ "\" 2>/dev/null || true"

/-- The four-command chain creating and raising a secured profile. -/
def createChainCmd (ssid iface security password : String) : String :=
  "nmcli con add type wifi con-name \"" ++ ssid ++ "\" ifname " ++ iface ++
    " ssid \"" ++ ssid ++ "\" && " ++
    "nmcli con modify \"" ++ ssid ++ "\" wifi-sec.key-mgmt " ++ security ++ " && " ++
    "nmcli con modify \"" ++ ssid ++ "\" wifi-sec.psk \"" ++ password ++ "\" && " ++
    "nmcli con up \"" ++ ssid ++ "\""

/-- The simple connect command for open or saved networks. -/
def simpleConnectCmd (ssid password : String) : String :=
  "nmcli dev wifi connect \"" ++ ssid ++ "\"" ++
    (if password ≠ "" then " password \"" ++ password ++ "\"" else "")

/-- External results consumed by one `connect` call: the interface
lookup, the exit status of the connect command (chain or simple), and
the probe backing the trailing `scan_networks`. -/
structure ConnectIn where
  ifacePr : PipeResult
  sysRet : Int
  scanPr : PipeResult
deriving DecidableEq

/-- `WifiManager::Impl::connect`.  If the stored list already shows this
SSID as connected, only a message is printed.  Otherwise a secured
connect (non-empty password and security type) resolves the interface,
deletes any old profile and runs the creation chain, while an open
connect runs the single command; both paths end in `scan_networks`.
Every `std::system`/`popen` appears as an `Ev.cmd` in program order. -/
def connect (st : WifiState) (ssid password security : String)
    (inp : ConnectIn) : WifiState × List Ev :=
  if st.networks.any (fun n => n.ssid = ssid && n.connected) then
    (st, [Ev.info ("Already connected to " ++ ssid)])
  else
    let ev0 := [Ev.info ("Connecting to WiFi network: " ++ ssid ++ "...")]
    if password ≠ "" ∧ security ≠ "" then
      let ifr := get_wifi_interface inp.ifacePr
      if ifr.1 = "" then
        (st, ev0 ++ ifr.2 ++ [Ev.err "Error: No WiFi interface found"])
      else
        let evRun :=
          [Ev.cmd (deleteCmd ssid),
           Ev.cmd (createChainCmd ssid ifr.1 security password)]
        let evRes :=
          if inp.sysRet = 0 then [Ev.info ("Successfully connected to " ++ ssid)]
          else [Ev.err ("Failed to connect to " ++ ssid)]
        let scanned := scan_networks st inp.scanPr
        (scanned.1, ev0 ++ ifr.2 ++ evRun ++ evRes ++ scanned.2)
    else
      let evRun := [Ev.cmd (simpleConnectCmd ssid password)]
      let evRes :=
        if inp.sysRet = 0 then [Ev.info ("Successfully connected to " ++ ssid)]
        else [Ev.err ("Failed to connect to " ++ ssid)]
      let scanned := scan_networks st inp.scanPr
      (scanned.1, ev0 ++ evRun ++ evRes ++ scanned.2)

/-- `WifiManager::Impl::disconnect`: resolve the interface, disconnect
it, and rescan. -/
def disconnect (st : WifiState) (ifacePr : PipeResult) (scanPr : PipeResult) :
    WifiState × List Ev :=
  let ifr := get_wifi_interface ifacePr
  if ifr.1 = "" then
    (st, ifr.2 ++ [Ev.err "Error: No WiFi interface found"])
  else
    let scanned := scan_networks st scanPr
    (scanned.1,
     ifr.2 ++ [Ev.info "Disconnecting from WiFi...",
               Ev.cmd ("nmcli device disconnect " ++ ifr.1)] ++ scanned.2)

/-- External results consumed by one run of the connect-button handler:
the first (saved-credentials) connect, the rescan after the one-second
sleep, the password dialog outcome (`none` = cancelled), the second
connect, and the rescan after the second sleep. -/
structure ClickIn where
  conn1 : ConnectIn
  scan2 : PipeResult
  dialogPw : Option String
  conn2 : ConnectIn
  scan3 : PipeResult
  dIface : PipeResult
  dScan : PipeResult
deriving DecidableEq

/-- `WifiNetworkWidget::on_connect_clicked`, run synchronously on the
UI thread by the GTK click signal.  A connected network is disconnected.
Otherwise the handler connects with saved credentials, sleeps one second
(`Glib::usleep(1000000)`), rescans and checks the list; when still not
connected and the network is secured it shows the password dialog and,
on OK, connects with the entered password, sleeps another second,
rescans and reports success or failure. -/
def on_connect_clicked (st : WifiState) (net : Network) (inp : ClickIn) :
    WifiState × List Ev :=
  if net.connected then
    disconnect st inp.dIface inp.dScan
  else
    let security := if net.secured then "wpa-psk" else ""
    let ev0 := [Ev.info ("Trying to connect to " ++ net.ssid ++
                         " using saved credentials...")]
    let c1 := connect st net.ssid "" security inp.conn1
    let evSleep := [Ev.sleepMicros 1000000]
    let s2 := scan_networks c1.1 inp.scan2
    let pre := ev0 ++ c1.2 ++ evSleep ++ s2.2
    if s2.1.networks.any (fun n => n.ssid = net.ssid && n.connected) then
      (s2.1, pre ++ [Ev.dialog ("Successfully connected to " ++ net.ssid)])
    else if net.secured then
      match inp.dialogPw with
      | none => (s2.1, pre ++ [Ev.dialog "Enter WiFi Password"])
      | some pw =>
          let ev1 := [Ev.dialog "Enter WiFi Password",
                      Ev.info ("Connecting to " ++ net.ssid ++ " with password...")]
          let c2 := connect s2.1 net.ssid pw security inp.conn2
          let s3 := scan_networks c2.1 inp.scan3
          let ok := s3.1.networks.any (fun n => n.ssid = net.ssid && n.connected)
          (s3.1,
           pre ++ ev1 ++ c2.2 ++ [Ev.sleepMicros 1000000] ++ s3.2 ++
             [Ev.dialog (if ok then "Successfully connected to " ++ net.ssid
                         else "Failed to connect to " ++ net.ssid)])
    else (s2.1, pre)

/-- An event blocks the thread it runs on: every external command
execution (`popen`, `std::system`) waits for the child process, and
`Glib::usleep` suspends the calling thread. -/
def Ev.blocking : Ev → Bool
  | Ev.cmd _ => true
  | Ev.sleepMicros _ => true
  | _ => false

/-! Part 2: the tab-lifecycle orchestrator of `MainWindow`. -/

/-- Per-tab record, struct `TabInfo` in main.cpp (the widget pointer is
not tracked; per the slot invariant, content presence is `loaded`). -/
structure TabInfo where
  page_num : Nat
  loaded : Bool
  loading : Bool
deriving DecidableEq

/-- The value `std::map::operator[]` creates for an absent key
(value-initialisation of the aggregate). -/
def TabInfo.init : TabInfo :=
  { page_num := 0, loaded := false, loading := false }

/-- First-occurrence lookup in an association list (`std::map::find`,
key order irrelevant because keys are unique in every reachable state). -/
def alookup (l : List (String × α)) (k : String) : Option α :=
  match l.find? (fun p => p.1 = k) with
  | some p => some p.2
  | none => none

/-- Update the first binding of `k`, or append one (`operator[]` =). -/
def aset (l : List (String × α)) (k : String) (v : α) : List (String × α) :=
  match l with
  | [] => [(k, v)]
  | p :: rest => if p.1 = k then (k, v) :: rest else p :: aset rest k v

/-- `tab_widgets_[id]` read access: return the binding, inserting the
value-initialised record first when the key is absent. -/
def getOrInsert (l : List (String × TabInfo)) (k : String) :
    List (String × TabInfo) × TabInfo :=
  match alookup l k with
  | some v => (l, v)
  | none => (l ++ [(k, TabInfo.init)], TabInfo.init)

/-- Scheduled Glib timeout callbacks that change orchestrator state: the
50 ms `show_loading_indicator` + `load_tab_content_async` pair from
`on_tab_switch`, a pending `create_tab_content`, and the 100 ms reset of
the function-local static guard of `on_tab_switch`. -/
inductive Pending where
  | showAndLoad (id : String) (page : Nat)
  | create (id : String) (page : Nat)
  | guardReset
deriving DecidableEq

/-- Orchestrator state: the tab registry, the load-error map, the queue
of scheduled continuations, the notebook's current page, the two
constructor-set fields, and the static re-entrancy guard. -/
structure MW where
  tabs : List (String × TabInfo)
  errors : List (String × String)
  pending : List Pending
  current_page : Nat
  prevent_auto_loading : Bool
  initial_tab : String
  guard : Bool
deriving DecidableEq

/-- UI effects of one orchestrator operation (for observability only):
exit/entrance CSS animations, page selection, the spinner/content page
swap, one panel-factory execution, a scheduled timeout in milliseconds,
and the tab-loaded dispatcher emission. -/
inductive Fx where
  | exitAnim (page : Nat)
  | entranceAnim (page : Nat)
  | setPage (page : Nat)
  | swapWidget (page : Nat)
  | factoryRun (id : String)
  | schedule (ms : Nat)
  | emitLoaded (id : String)
deriving DecidableEq

/-- The five panel identifiers the `if`/`else if` chains recognise. -/
def knownTab (id : String) : Bool :=
  id = "volume" || id = "wifi" || id = "bluetooth" || id = "display" || id = "power"

/-- `MainWindow::show_loading_indicator`.  Early returns: already loaded
or loading, or an out-of-range page number.  Otherwise the slot is
marked loading; an unrecognised id immediately unmarks it.  For a known
id the placeholder page is removed and the spinner inserted at the same
index (so `insert_page` returns the same number, stored back), and the
notebook switches to the page when it is not already current. -/
def show_loading_indicator (m : MW) (id : String) (page : Nat) : MW × List Fx :=
  let g := getOrInsert m.tabs id
  let m0 := { m with tabs := g.1 }
  let info := g.2
  if info.loaded || info.loading then (m0, [])
  else if m0.tabs.length ≤ page then (m0, [])
  else if knownTab id then
    let m1 := { m0 with tabs := aset m0.tabs id ({ info with loading := true, page_num := page }) }
    if m1.current_page ≠ page then
      ({ m1 with current_page := page }, [Fx.swapWidget page, Fx.setPage page])
    else (m1, [Fx.swapWidget page])
  else
    ({ m0 with tabs := aset m0.tabs id { info with loading := false } }, [])

/-- `MainWindow::load_tab_content_async`: unless the slot is already
loaded, schedule `create_tab_content` on a timeout (10 ms for the power
tab, 100 ms otherwise). -/
def load_tab_content_async (m : MW) (id : String) (page : Nat) : MW × List Fx :=
  let g := getOrInsert m.tabs id
  let m0 := { m with tabs := g.1 }
  if g.2.loaded then (m0, [])
  else
    ({ m0 with pending := m0.pending ++ [Pending.create id page] },
     [Fx.schedule (if id = "power" then 10 else 100)])

/-- `MainWindow::create_tab_content` (the `page_num` parameter is unused
in the source body, which re-reads the stored page number).  Guard:
already loaded.  An unrecognised id records `"Unknown tab type"`.  A
known id runs the panel factory (`outcome = some msg` models the factory
throwing, handled by the catch blocks: unmark loading, record the
message).  On success the spinner page is swapped for the content at the
stored index, the slot becomes loaded, the notebook switches to the page
when needed, the entrance animation is scheduled and the tab-loaded
dispatcher fires. -/
def create_tab_content (m : MW) (id : String) (outcome : Option String) :
    MW × List Fx :=
  let g := getOrInsert m.tabs id
  let m0 := { m with tabs := g.1 }
  let info := g.2
  if info.loaded then (m0, [])
  else if knownTab id then
    match outcome with
    | some e =>
        ({ m0 with tabs := aset m0.tabs id { info with loading := false },
                   errors := aset m0.errors id e },
         [Fx.factoryRun id])
    | none =>
        let p := info.page_num
        let m1 := { m0 with tabs := aset m0.tabs id ({ info with loaded := true, loading := false }) }
        let fx := [Fx.factoryRun id, Fx.swapWidget p]
        if m1.current_page ≠ p then
          ({ m1 with current_page := p },
           fx ++ [Fx.setPage p, Fx.schedule 50, Fx.emitLoaded id])
        else (m1, fx ++ [Fx.schedule 50, Fx.emitLoaded id])
  else
    ({ m0 with tabs := aset m0.tabs id { info with loading := false },
               errors := aset m0.errors id "Unknown tab type" },
     [])

/-- Identifier of the tab occupying a notebook page, if any (the
page-number searches of `on_tab_switch`). -/
def tabAt (m : MW) (page : Nat) : Option String :=
  match m.tabs.find? (fun p => p.2.page_num = page) with
  | some p => some p.1
  | none => none

/-- Whether the tab occupying a page is fully loaded. -/
def loadedAt (m : MW) (page : Nat) : Bool :=
  match m.tabs.find? (fun p => p.2.page_num = page) with
  | some p => p.2.loaded
  | none => false

/-- `MainWindow::on_tab_switch`, the `switch-page` handler.  The static
guard suppresses re-entrant runs.  The exit animation plays when the
outgoing page is a loaded tab.  With `prevent_auto_loading_` set, any
page other than the initial tab's returns immediately.  A placeholder
slot on the new page starts a load: the guard is set, the power tab
loads immediately, other tabs get the 50 ms deferred pair, and the guard
reset is scheduled after 100 ms.  Otherwise a loaded new page gets the
entrance animation. -/
def on_tab_switch (m : MW) (page : Nat) : MW × List Fx :=
  if m.guard then (m, [])
  else
    let fxOut :=
      if m.current_page ≠ page && loadedAt m m.current_page then
        [Fx.exitAnim m.current_page, Fx.schedule 250]
      else []
    if m.prevent_auto_loading && tabAt m page ≠ some m.initial_tab then
      (m, fxOut)
    else
      match m.tabs.find?
          (fun p => p.2.page_num = page && !p.2.loaded && !p.2.loading) with
      | some t =>
          let m1 := { m with guard := true }
          if t.1 = "power" then
            let r1 := show_loading_indicator m1 t.1 page
            let r2 := load_tab_content_async r1.1 t.1 page
            ({ r2.1 with pending := r2.1.pending ++ [Pending.guardReset] },
             fxOut ++ r1.2 ++ r2.2 ++ [Fx.schedule 100])
          else
            ({ m1 with pending := m1.pending ++
                  [Pending.showAndLoad t.1 page, Pending.guardReset] },
             fxOut ++ [Fx.schedule 50, Fx.schedule 100])
      | none =>
          if loadedAt m page then
            (m, fxOut ++ [Fx.entranceAnim page, Fx.schedule 50])
          else (m, fxOut)

/-- `notebook_.set_current_page(page)`: when the page changes, GTK emits
`switch-page` synchronously (running `on_tab_switch` against the old
current page) and then makes `page` current. -/
def set_current_page (m : MW) (page : Nat) : MW × List Fx :=
  if m.current_page = page then (m, [])
  else
    let r := on_tab_switch m page
    ({ r.1 with current_page := page }, Fx.setPage page :: r.2)

/-- `MainWindow::switch_to_tab`.  Unknown ids do nothing.  Otherwise the
outgoing loaded tab animates out, the notebook switches to the tab's
page (emitting `switch-page`), and then — re-reading the live map entry —
a slot that is neither loaded nor loading is shown loading and scheduled
for construction, while an already loaded slot only animates in. -/
def switch_to_tab (m : MW) (id : String) : MW × List Fx :=
  match alookup m.tabs id with
  | none => (m, [])
  | some info =>
      let fxOut :=
        if m.current_page ≠ info.page_num && loadedAt m m.current_page then
          [Fx.exitAnim m.current_page, Fx.schedule 200]
        else []
      let r0 := set_current_page m info.page_num
      let m0 := r0.1
      match alookup m0.tabs id with
      | none => (m0, fxOut ++ r0.2)
      | some info2 =>
          if !info2.loaded && !info2.loading then
            let r1 := show_loading_indicator m0 id info2.page_num
            let r2 := load_tab_content_async r1.1 id info2.page_num
            (r2.1, fxOut ++ r0.2 ++ r1.2 ++ r2.2)
          else if info2.loaded then
            (m0, fxOut ++ r0.2 ++ [Fx.entranceAnim info2.page_num, Fx.schedule 50])
          else (m0, fxOut ++ r0.2)

/-- The click handler installed on each tab label (`create_tab_label`):
switch to the tab's page (emitting `switch-page`) and then — re-reading
the live map entry — start loading when the slot is neither loaded nor
loading. -/
def clickLabel (m : MW) (id : String) : MW × List Fx :=
  match alookup m.tabs id with
  | none => (m, [])
  | some info =>
      let r0 := set_current_page m info.page_num
      let m0 := r0.1
      match alookup m0.tabs id with
      | none => (m0, r0.2)
      | some info2 =>
          if !info2.loaded && !info2.loading then
            let r1 := show_loading_indicator m0 id info2.page_num
            let r2 := load_tab_content_async r1.1 id info2.page_num
            (r2.1, r0.2 ++ r1.2 ++ r2.2)
          else (m0, r0.2)

/-- One step of the orchestrator: a `switch_to_tab` call, a label click,
a notebook-driven page switch (the `switch-page` handler followed by
GTK making the page current), or the firing of the scheduled
continuation at queue index `i` (`outcome` feeds the panel factory when
that continuation is a pending construction). -/
inductive Step where
  | switchTo (id : String)
  | click (id : String)
  | nbSwitch (page : Nat)
  | fire (i : Nat) (outcome : Option String)

/-- Step semantics. -/
def step (m : MW) : Step → MW × List Fx
  | Step.switchTo id => switch_to_tab m id
  | Step.click id => clickLabel m id
  | Step.nbSwitch page =>
      let r := on_tab_switch m page
      ({ r.1 with current_page := page }, r.2)
  | Step.fire i outcome =>
      match m.pending.get? i with
      | none => (m, [])
      | some ev =>
          let m0 := { m with pending := m.pending.eraseIdx i }
          match ev with
          | Pending.showAndLoad id page =>
              let r1 := show_loading_indicator m0 id page
              let r2 := load_tab_content_async r1.1 id page
              (r2.1, r1.2 ++ r2.2)
          | Pending.create id _page => create_tab_content m0 id outcome
          | Pending.guardReset => ({ m0 with guard := false }, [])

/-- `MainWindow::create_tabs` followed by the rest of the constructor:
one placeholder page per enabled tab id, appended in settings order, no
errors, nothing scheduled, page 0 current, auto-loading prevented
exactly when an initial tab was requested. -/
def mkInit (slotIds : List String) (initial : String) : MW :=
  { tabs := slotIds.enum.map (fun p => (p.2, { page_num := p.1, loaded := false, loading := false })),
    errors := [], pending := [], current_page := 0,
    prevent_auto_loading := initial ≠ "", initial_tab := initial,
    guard := false }

/-- Well-formed constructor arguments: distinct ids, all recognised by
the `if`/`else if` chains (which is how `create_tabs` builds the map). -/
def WFInit (m : MW) : Prop :=
  ∃ ids initial, ids.Nodup ∧ (∀ id ∈ ids, knownTab id = true) ∧
    m = mkInit ids initial

/-- States reachable from a well-formed start by orchestrator steps. -/
inductive Reachable : MW → Prop where
  | init (m : MW) : WFInit m → Reachable m
  | next (m : MW) (s : Step) : Reachable m → Reachable (step m s).1

/-- The spec's four slot lifecycle states. -/
inductive SlotState where
  | Placeholder
  | Loading
  | Loaded
  | Failed
deriving DecidableEq

/-- Lifecycle state computed from a tab registry and error map:
`loaded` wins, then `loading`, then a recorded load error means
`Failed`; otherwise the placeholder is still in place.  An id without a
slot reads as `Placeholder` (the value-initialised record, no error). -/
def slotStateT (tabs : List (String × TabInfo)) (errors : List (String × String))
    (id : String) : SlotState :=
  let info := (alookup tabs id).getD TabInfo.init
  if info.loaded then SlotState.Loaded
  else if info.loading then SlotState.Loading
  else
    match alookup errors id with
    | some _ => SlotState.Failed
    | none => SlotState.Placeholder

/-- Lifecycle state of a slot of the window. -/
def slotState (m : MW) (id : String) : SlotState :=
  slotStateT m.tabs m.errors id

/-! Concrete instances used by the counterexamples and witnesses. -/

/-- A stored network: the manager is connected to it. -/
def homeNet : Network :=
  { ssid := "HomeNet", bssid := "", signal_strength := 70,
    connected := true, secured := true }

/-- Manager state holding one network, radio enabled, update callback
registered. -/
def c2St : WifiState :=
  { networks := [homeNet], wifi_enabled := true,
    hasUpdateCb := true, hasStateCb := false }

/-- Manager state with an empty list, radio enabled, no callbacks. -/
def c1St : WifiState :=
  { networks := [], wifi_enabled := true,
    hasUpdateCb := false, hasStateCb := false }

/-- Output of the probe issued first (sequence 1). -/
def c1Out1 : List Char := "*:NetA:80:WPA2\n".data

/-- Output of the probe issued second (sequence 2). -/
def c1Out2 : List Char := ":NetB:40:--\n".data

/-- Manager state with an empty list, enabled, update callback set. -/
def c8St : WifiState :=
  { networks := [], wifi_enabled := true,
    hasUpdateCb := true, hasStateCb := false }

/-- Scan output captured from a command whose exit status is nonzero. -/
def c8Out : List Char := "*:NetA:80:WPA2\n".data

/-- The network parsed from the single line of `c8Out`. -/
def c8Net : Network :=
  { ssid := "NetA", bssid := "", signal_strength := 80,
    connected := true, secured := true }

/-- An open, not-connected network shown by a `WifiNetworkWidget`. -/
def c6Net : Network :=
  { ssid := "CoffeeShop", bssid := "", signal_strength := 55,
    connected := false, secured := false }

/-- Manager state behind the widget. -/
def c6St : WifiState :=
  { networks := [], wifi_enabled := true,
    hasUpdateCb := false, hasStateCb := false }

/-- External results for one click: every probe fails, no dialog. -/
def c6In : ClickIn :=
  { conn1 := { ifacePr := PipeResult.fail, sysRet := 0, scanPr := PipeResult.fail },
    scan2 := PipeResult.fail, dialogPw := none,
    conn2 := { ifacePr := PipeResult.fail, sysRet := 0, scanPr := PipeResult.fail },
    scan3 := PipeResult.fail, dIface := PipeResult.fail, dScan := PipeResult.fail }

/-- Number of pending `create_tab_content` continuations for a slot:
the construction requests currently scheduled for it. -/
def countCreates (m : MW) (id : String) : Nat :=
  m.pending.countP (fun p =>
    match p with
    | Pending.create i _ => i = id
    | _ => false)

/-- Number of pending deferred show-and-load pairs for a slot. -/
def countPairs (m : MW) (id : String) : Nat :=
  m.pending.countP (fun p =>
    match p with
    | Pending.showAndLoad i _ => i = id
    | _ => false)

/-- Effects that are purely visual (animations, page selection, timers):
no construction, no widget swap, no dispatcher emission. -/
def Fx.visual : Fx → Bool
  | Fx.exitAnim _ => true
  | Fx.entranceAnim _ => true
  | Fx.setPage _ => true
  | Fx.schedule _ => true
  | _ => false

/-- The transition edges the specification allows between slot states. -/
def specEdge : SlotState → SlotState → Bool
  | SlotState.Placeholder, SlotState.Loading => true
  | SlotState.Loading, SlotState.Loaded => true
  | SlotState.Loading, SlotState.Failed => true
  | SlotState.Failed, SlotState.Loading => true
  | _, _ => false

/-- Structural invariant of reachable orchestrator states: unique tab
ids, all ids recognised, page numbers in range and unique, every
scheduled pair targetting an existing slot at its stored page, and
every scheduled construction targetting a slot that is past
`Placeholder` (loading, loaded, or failed). -/
structure Inv (m : MW) : Prop where
  keys : (m.tabs.map Prod.fst).Nodup
  known : ∀ p ∈ m.tabs, knownTab p.1 = true
  pages : ∀ p ∈ m.tabs, p.2.page_num < m.tabs.length
  pagesN : (m.tabs.map (fun p => p.2.page_num)).Nodup
  pendSL : ∀ id pg, Pending.showAndLoad id pg ∈ m.pending →
    ∃ info, alookup m.tabs id = some info ∧ info.page_num = pg
  pendCr : ∀ id pg, Pending.create id pg ∈ m.pending →
    ∃ info, alookup m.tabs id = some info ∧ info.page_num = pg ∧
      (info.loading = true ∨ info.loaded = true ∨ (alookup m.errors id).isSome = true)

/-- Transitions observed in the code: no change, a specification edge,
or the extra edge `Failed → Loaded` (a stale duplicate construction
succeeding after a failed one). -/
def okTrans (a b : SlotState) : Prop :=
  b = a ∨ specEdge a b = true ∨ (a = SlotState.Failed ∧ b = SlotState.Loaded)

/-- A two-tab window with no initial tab requested. -/
def twoTabs : MW := mkInit ["volume", "wifi"] ""

/-- After one click on the wifi tab label: the synchronous switch-page
emission has scheduled the deferred pair, and the handler itself has
shown the spinner and scheduled the first construction. -/
def c4m1 : MW := (step twoTabs (Step.click "wifi")).1

/-- After the deferred pair fires: `show_loading_indicator` returns on
the guard, but `load_tab_content_async` schedules a second construction. -/
def c4m2 : MW := (step c4m1 (Step.fire 0 none)).1

/-- After the first construction fires and the panel factory throws:
the wifi slot is `Failed`, the duplicate construction still pending. -/
def c3m3 : MW := (step c4m2 (Step.fire 1 (some "factory threw"))).1

/-- After the duplicate construction fires and succeeds. -/
def c3m4 : MW := (step c3m3 (Step.fire 1 none)).1

/-- After the first construction fires and the factory succeeds instead:
the wifi slot is `Loaded` (used to exercise selections on loaded slots). -/
def c5m : MW := (step c4m2 (Step.fire 1 none)).1

/-- A three-tab window started with `--wifi` (initial tab "wifi"). -/
def c7m0 : MW := mkInit ["volume", "wifi", "display"] "wifi"

/-- The constructor's `switch_to_tab(initial_tab_)`. -/
def c7m1 : MW := (step c7m0 (Step.switchTo "wifi")).1

/-- The deferred pair for the initial tab fires. -/
def c7m2 : MW := (step c7m1 (Step.fire 0 none)).1

/-- The initial tab's construction succeeds: wifi is `Loaded`. -/
def c7m3 : MW := (step c7m2 (Step.fire 1 none)).1

/-- The user explicitly clicks the volume tab label. -/
def c7m4 : MW := (step c7m3 (Step.click "volume")).1

/-- Volume's construction succeeds: the explicit interaction has
happened and loaded a non-initial panel. -/
def c7m5 : MW := (step c7m4 (Step.fire 2 none)).1

/-- A subsequent selection of the display page (page 2). -/
def c7m6 : MW := (step c7m5 (Step.nbSwitch 2)).1

/-! Theorems.  Each claim of the specification gets one main theorem;
corrected claims additionally get a closed counterexample against the
claim as stated. -/

/-- C9: while WiFi is disabled, `scan_networks` executes no external
command, empties the stored network list, and — when an update callback
is registered — invokes it exactly once, with the empty list (the event
trace is exactly that single invocation). -/
theorem C9_scan_disabled (st : WifiState) (pr : PipeResult)
    (h : st.wifi_enabled = false) :
    (scan_networks st pr).1.networks = [] ∧
    (∀ c, Ev.cmd c ∉ (scan_networks st pr).2) ∧
    (st.hasUpdateCb = true → (scan_networks st pr).2 = [Ev.update []]) ∧
    (st.hasUpdateCb = false → (scan_networks st pr).2 = []) := by
  cases hcb : st.hasUpdateCb <;> simp [scan_networks, h, hcb]

/-- C9 witness: the disabled-scan theorem applied to a concrete state
with a registered callback and a nonempty stored list. -/
theorem C9_witness :
    (scan_networks { c2St with wifi_enabled := false } PipeResult.fail).1.networks = [] ∧
    (∀ c, Ev.cmd c ∉ (scan_networks { c2St with wifi_enabled := false } PipeResult.fail).2) ∧
    (({ c2St with wifi_enabled := false } : WifiState).hasUpdateCb = true →
      (scan_networks { c2St with wifi_enabled := false } PipeResult.fail).2 = [Ev.update []]) ∧
    (({ c2St with wifi_enabled := false } : WifiState).hasUpdateCb = false →
      (scan_networks { c2St with wifi_enabled := false } PipeResult.fail).2 = []) :=
  C9_scan_disabled { c2St with wifi_enabled := false } PipeResult.fail rfl

/-- C10: when the radio command reports a nonzero exit status,
`enable_wifi` and `disable_wifi` leave the whole state (flag and network
list) unchanged and produce no callback invocation: the trace is exactly
the command execution. -/
theorem C10_toggle_atomic_on_failure (st : WifiState) (ret : Int)
    (scanPr : PipeResult) (h : ret ≠ 0) :
    enable_wifi st ret scanPr = (st, [Ev.cmd "nmcli radio wifi on"]) ∧
    disable_wifi st ret = (st, [Ev.cmd "nmcli radio wifi off"]) := by
  simp [enable_wifi, disable_wifi, h]

/-- C10 witness: the atomicity theorem at exit status 1. -/
theorem C10_witness :
    enable_wifi c2St 1 PipeResult.fail = (c2St, [Ev.cmd "nmcli radio wifi on"]) ∧
    disable_wifi c2St 1 = (c2St, [Ev.cmd "nmcli radio wifi off"]) :=
  C10_toggle_atomic_on_failure c2St 1 PipeResult.fail (by decide)

/-- C2 counterexample: a probe whose pipe cannot be opened does change
the snapshot — the list was cleared before the `popen`, so a state
holding one network ends up empty — and nothing reaches the observer
callback (only a stderr diagnostic follows the attempted command). -/
theorem C2_counterexample :
    (scan_networks c2St PipeResult.fail).1.networks ≠ c2St.networks ∧
    (scan_networks c2St PipeResult.fail).2 =
      [Ev.cmd scanCmd, Ev.err "Failed to run nmcli"] := by
  decide

/-- C2 amended: a failed probe does not leave the snapshot intact — it
leaves it empty.  With the radio enabled, a `popen` failure ends with an
empty list and only a stderr diagnostic (no observer event at all),
and a probe whose output parses to nothing ends with an empty list and
an update-callback invocation carrying the empty list. -/
theorem C2_amended (st : WifiState) (h : st.wifi_enabled = true) :
    ((scan_networks st PipeResult.fail).1.networks = [] ∧
     (scan_networks st PipeResult.fail).2 =
       [Ev.cmd scanCmd, Ev.err "Failed to run nmcli"]) ∧
    (∀ ec out, parseScanOutput out = [] →
      (scan_networks st (PipeResult.ok ec out)).1.networks = [] ∧
      (scan_networks st (PipeResult.ok ec out)).2 =
        Ev.cmd scanCmd :: (if st.hasUpdateCb then [Ev.update []] else [])) := by
  refine ⟨by simp [scan_networks, h], ?_⟩
  intro ec out hp
  simp [scan_networks, h, hp]

/-- C2 witness: the amended theorem at the concrete one-network state
and an output with no complete line. -/
theorem C2_witness :
    ((scan_networks c2St PipeResult.fail).1.networks = [] ∧
     (scan_networks c2St PipeResult.fail).2 =
       [Ev.cmd scanCmd, Ev.err "Failed to run nmcli"]) ∧
    (∀ ec out, parseScanOutput out = [] →
      (scan_networks c2St (PipeResult.ok ec out)).1.networks = [] ∧
      (scan_networks c2St (PipeResult.ok ec out)).2 =
        Ev.cmd scanCmd :: (if c2St.hasUpdateCb then [Ev.update []] else [])) :=
  C2_amended c2St rfl

/-- C1 counterexample: there is no sequence-number guard.  With probes
P1 (issued first, output `c1Out1`) and P2 (issued second, output
`c1Out2`) applied in the order P2 then P1 — the late completion of the
earlier probe arriving last — the final snapshot is P1's parse, not
P2's, so the earlier probe does overwrite the newer state. -/
theorem C1_counterexample :
    (scan_networks (scan_networks c1St (PipeResult.ok 0 c1Out2)).1
        (PipeResult.ok 0 c1Out1)).1.networks ≠ parseScanOutput c1Out2 ∧
    (scan_networks (scan_networks c1St (PipeResult.ok 0 c1Out2)).1
        (PipeResult.ok 0 c1Out1)).1.networks = parseScanOutput c1Out1 := by
  decide

/-- C1 amended: the snapshot after two successful probes equals the
parse of whichever probe was applied last — last-applied-wins, with no
comparison of issue order at apply time. -/
theorem C1_amended (st : WifiState) (h : st.wifi_enabled = true)
    (e1 e2 : Int) (o1 o2 : List Char) :
    (scan_networks (scan_networks st (PipeResult.ok e1 o1)).1
        (PipeResult.ok e2 o2)).1.networks = parseScanOutput o2 := by
  simp [scan_networks, h]

/-- C1 witness: last-applied-wins at the concrete state and outputs. -/
theorem C1_witness :
    (scan_networks (scan_networks c1St (PipeResult.ok 0 c1Out1)).1
        (PipeResult.ok 0 c1Out2)).1.networks = parseScanOutput c1Out2 :=
  C1_amended c1St rfl 0 0 c1Out1 c1Out2

/-- C8 counterexample: the exit status reported by `pclose` is ignored.
A scan whose command exits with status 1 but produced one complete line
has that line parsed and applied, and the trace contains no failure
diagnostic — the update callback receives the parsed network. -/
theorem C8_counterexample :
    (scan_networks c8St (PipeResult.ok 1 c8Out)).1.networks = [c8Net] ∧
    (scan_networks c8St (PipeResult.ok 1 c8Out)).2 =
      [Ev.cmd scanCmd, Ev.update [c8Net]] := by
  decide

/-- Scanning a character list without a newline yields no lines. -/
theorem scanLines_eq_nil (t : List Char) (h : '\n' ∉ t) : scanLines t = [] := by
  induction t with
  | nil => rfl
  | cons c r ih =>
      simp only [List.mem_cons, not_or] at h
      simp [scanLines, Ne.symm h.1, ih h.2]

/-- Appending newline-free text does not change the processed lines:
the loop leaves exactly such a fragment unprocessed. -/
theorem scanLines_append (s t : List Char) (h : '\n' ∉ t) :
    scanLines (s ++ t) = scanLines s := by
  induction s with
  | nil => simp [scanLines_eq_nil t h, scanLines]
  | cons c r ih =>
      by_cases hc : c = '\n' <;> simp [scanLines, hc, ih]

/-- C8 amended: only a `popen` failure is surfaced as a failure (with a
diagnostic, and nothing parsed); the process exit status is ignored —
two runs differing only in exit status behave identically — and the
captured text is parsed by complete lines regardless of status, with
only a trailing fragment not terminated by a newline discarded. -/
theorem C8_amended (st : WifiState) (h : st.wifi_enabled = true) :
    ((scan_networks st PipeResult.fail).1.networks = [] ∧
     (scan_networks st PipeResult.fail).2 =
       [Ev.cmd scanCmd, Ev.err "Failed to run nmcli"]) ∧
    (∀ e1 e2 out, scan_networks st (PipeResult.ok e1 out) =
      scan_networks st (PipeResult.ok e2 out)) ∧
    (∀ e out frag, '\n' ∉ frag →
      scan_networks st (PipeResult.ok e (out ++ frag)) =
        scan_networks st (PipeResult.ok e out)) := by
  refine ⟨by simp [scan_networks, h], ?_, ?_⟩
  · intro e1 e2 out
    simp [scan_networks, h]
  · intro e out frag hf
    simp [scan_networks, h, parseScanOutput, scanLines_append out frag hf]

/-- C8 witness: the amended theorem at the concrete state, with the
concrete output extended by an unterminated fragment. -/
theorem C8_witness :
    ((scan_networks c8St PipeResult.fail).1.networks = [] ∧
     (scan_networks c8St PipeResult.fail).2 =
       [Ev.cmd scanCmd, Ev.err "Failed to run nmcli"]) ∧
    (∀ e1 e2 out, scan_networks c8St (PipeResult.ok e1 out) =
      scan_networks c8St (PipeResult.ok e2 out)) ∧
    (∀ e out frag, '\n' ∉ frag →
      scan_networks c8St (PipeResult.ok e (out ++ frag)) =
        scan_networks c8St (PipeResult.ok e out)) :=
  C8_amended c8St rfl

/-- C6 counterexample: one concrete click — an open, not-connected
network, every external probe failing — already performs blocking work
on the UI thread (external command executions and the one-second
`Glib::usleep`). -/
theorem C6_counterexample :
    ((on_connect_clicked c6St c6Net c6In).2.any Ev.blocking) = true := by
  decide

/-- The interface lookup always executes its command pipeline. -/
theorem get_wifi_interface_ev (pr : PipeResult) :
    (get_wifi_interface pr).2 = [Ev.cmd ifaceCmd] := by
  cases pr <;> rfl

/-- Disconnecting always runs the blocking interface lookup. -/
theorem disconnect_has_cmd (st : WifiState) (pr1 pr2 : PipeResult) :
    Ev.cmd ifaceCmd ∈ (disconnect st pr1 pr2).2 := by
  unfold disconnect
  simp [get_wifi_interface_ev]
  split <;> simp

/-- C6 amended: the UI thread does block.  Every execution of the
connect-button handler performs at least one blocking operation on the
UI thread: a click on a connected network runs the blocking interface
lookup, and a click on any other network performs the synchronous
one-second sleep (after running `connect` inline). -/
theorem C6_amended (st : WifiState) (net : Network) (inp : ClickIn) :
    ((on_connect_clicked st net inp).2.any Ev.blocking) = true := by
  rw [List.any_eq_true]
  unfold on_connect_clicked
  by_cases hc : net.connected = true
  · simp only [hc, if_true]
    exact ⟨Ev.cmd ifaceCmd, disconnect_has_cmd st inp.dIface inp.dScan, rfl⟩
  · simp only [hc]
    refine ⟨Ev.sleepMicros 1000000, ?_, rfl⟩
    simp only [Bool.false_eq_true, if_false]
    repeat' split
    all_goals simp

/-! Association-list lemmas for the tab registry and error map. -/

theorem alookup_nil (k : String) : alookup ([] : List (String × α)) k = none := rfl

theorem alookup_cons (p : String × α) (l : List (String × α)) (k : String) :
    alookup (p :: l) k = if p.1 = k then some p.2 else alookup l k := by
  by_cases h : p.1 = k <;> simp [alookup, List.find?, h]

theorem aset_cons (p : String × α) (l : List (String × α)) (k : String) (v : α) :
    aset (p :: l) k v = if p.1 = k then (k, v) :: l else p :: aset l k v := rfl

theorem alookup_aset_self (l : List (String × α)) (k : String) (v : α) :
    alookup (aset l k v) k = some v := by
  induction l with
  | nil => simp [aset, alookup_cons]
  | cons p rest ih =>
      rw [aset_cons]
      by_cases h : p.1 = k <;> simp [alookup_cons, h, ih]

theorem alookup_aset_ne (l : List (String × α)) (k j : String) (v : α)
    (h : k ≠ j) : alookup (aset l k v) j = alookup l j := by
  induction l with
  | nil => simp [aset, alookup_cons, h]
  | cons p rest ih =>
      rw [aset_cons]
      by_cases hp : p.1 = k
      · simp [alookup_cons, h, hp]
      · simp [alookup_cons, hp, ih]

theorem aset_map_fst (l : List (String × α)) (k : String) (v w : α)
    (h : alookup l k = some w) :
    (aset l k v).map Prod.fst = l.map Prod.fst := by
  induction l with
  | nil => simp [alookup_nil] at h
  | cons p rest ih =>
      rw [alookup_cons] at h
      rw [aset_cons]
      by_cases hp : p.1 = k
      · simp [hp]
      · simp [hp] at h
        simp [hp, ih h]

theorem length_aset (l : List (String × α)) (k : String) (v w : α)
    (h : alookup l k = some w) : (aset l k v).length = l.length := by
  have := aset_map_fst l k v w h
  calc (aset l k v).length = ((aset l k v).map Prod.fst).length := by simp
    _ = (l.map Prod.fst).length := by rw [this]
    _ = l.length := by simp

theorem mem_aset (l : List (String × α)) (k : String) (v : α)
    (q : String × α) (hq : q ∈ aset l k v) : q ∈ l ∨ q = (k, v) := by
  induction l with
  | nil => simp [aset] at hq; simp [hq]
  | cons p rest ih =>
      rw [aset_cons] at hq
      by_cases hp : p.1 = k
      · simp [hp] at hq
        rcases hq with h | h
        · right; simp [h]
        · left; simp [h]
      · simp [hp] at hq
        rcases hq with h | h
        · left; simp [h]
        · rcases ih h with h2 | h2
          · left; simp [h2]
          · right; exact h2

theorem alookup_of_mem (l : List (String × α)) (p : String × α)
    (hn : (l.map Prod.fst).Nodup) (hm : p ∈ l) : alookup l p.1 = some p.2 := by
  induction l with
  | nil => simp at hm
  | cons q rest ih =>
      rw [List.map_cons, List.nodup_cons] at hn
      rcases List.mem_cons.mp hm with h | h
      · rw [h, alookup_cons]; simp
      · rw [alookup_cons]
        have hne : q.1 ≠ p.1 := by
          intro he
          exact hn.1 (by rw [he]; exact List.mem_map_of_mem Prod.fst h)
        simp [hne, ih hn.2 h]

theorem aset_map_page (l : List (String × TabInfo)) (k : String)
    (v w : TabInfo) (h : alookup l k = some w) (hp : v.page_num = w.page_num) :
    (aset l k v).map (fun p => p.2.page_num) = l.map (fun p => p.2.page_num) := by
  induction l with
  | nil => simp [alookup_nil] at h
  | cons q rest ih =>
      rw [alookup_cons] at h
      rw [aset_cons]
      by_cases hq : q.1 = k
      · simp [hq] at h
        simp [hq, hp, h]
      · simp [hq] at h
        simp [hq, ih h]

theorem getOrInsert_present (l : List (String × TabInfo)) (k : String)
    (v : TabInfo) (h : alookup l k = some v) : getOrInsert l k = (l, v) := by
  simp [getOrInsert, h]

/-! Characterisation of the primitive orchestrator operations. -/

theorem show_loading_errors (m : MW) (id : String) (page : Nat) :
    (show_loading_indicator m id page).1.errors = m.errors := by
  simp only [show_loading_indicator]
  repeat' split
  all_goals rfl

theorem show_loading_pending (m : MW) (id : String) (page : Nat) :
    (show_loading_indicator m id page).1.pending = m.pending := by
  simp only [show_loading_indicator]
  repeat' split
  all_goals rfl

theorem show_loading_guard (m : MW) (id : String) (page : Nat) :
    (show_loading_indicator m id page).1.guard = m.guard := by
  simp only [show_loading_indicator]
  repeat' split
  all_goals rfl

theorem show_loading_prevent (m : MW) (id : String) (page : Nat) :
    (show_loading_indicator m id page).1.prevent_auto_loading = m.prevent_auto_loading := by
  simp only [show_loading_indicator]
  repeat' split
  all_goals rfl

theorem show_loading_initial (m : MW) (id : String) (page : Nat) :
    (show_loading_indicator m id page).1.initial_tab = m.initial_tab := by
  simp only [show_loading_indicator]
  repeat' split
  all_goals rfl

/-- A slot that is already loaded or loading: `show_loading_indicator`
returns unchanged. -/
theorem show_loading_noop (m : MW) (id : String) (page : Nat) (info : TabInfo)
    (h : alookup m.tabs id = some info)
    (hli : info.loaded = true ∨ info.loading = true) :
    show_loading_indicator m id page = (m, []) := by
  simp only [show_loading_indicator, getOrInsert_present _ _ _ h]
  rcases hli with h1 | h1 <;> simp [h1]

/-- A placeholder or failed slot with a valid page: the spinner is
shown, the slot is marked loading, and the notebook moves to the page
when it is not current. -/
theorem show_loading_set (m : MW) (id : String) (page : Nat) (info : TabInfo)
    (h : alookup m.tabs id = some info) (hk : knownTab id = true)
    (hl : info.loaded = false) (hg : info.loading = false)
    (hp : page < m.tabs.length) :
    show_loading_indicator m id page =
      (if m.current_page ≠ page then
        ({ m with tabs := aset m.tabs id ({ info with loading := true, page_num := page }),
                  current_page := page },
         [Fx.swapWidget page, Fx.setPage page])
       else
        ({ m with tabs := aset m.tabs id ({ info with loading := true, page_num := page }) },
         [Fx.swapWidget page])) := by
  simp only [show_loading_indicator, getOrInsert_present _ _ _ h, hl, hg, hk]
  simp [Nat.not_le.mpr hp]

theorem load_async_char (m : MW) (id : String) (page : Nat) (info : TabInfo)
    (h : alookup m.tabs id = some info) :
    load_tab_content_async m id page =
      (if info.loaded then (m, [])
       else
        ({ m with pending := m.pending ++ [Pending.create id page] },
         [Fx.schedule (if id = "power" then 10 else 100)])) := by
  simp only [load_tab_content_async, getOrInsert_present _ _ _ h]

theorem create_char (m : MW) (id : String) (outcome : Option String) (info : TabInfo)
    (h : alookup m.tabs id = some info) (hk : knownTab id = true) :
    create_tab_content m id outcome =
      (if info.loaded then (m, [])
       else
        match outcome with
        | some e =>
            ({ m with tabs := aset m.tabs id ({ info with loading := false }),
                      errors := aset m.errors id e },
             [Fx.factoryRun id])
        | none =>
            if m.current_page ≠ info.page_num then
              ({ m with tabs := aset m.tabs id ({ info with loaded := true, loading := false }),
                        current_page := info.page_num },
               [Fx.factoryRun id, Fx.swapWidget info.page_num, Fx.setPage info.page_num,
                Fx.schedule 50, Fx.emitLoaded id])
            else
              ({ m with tabs := aset m.tabs id ({ info with loaded := true, loading := false }) },
               [Fx.factoryRun id, Fx.swapWidget info.page_num,
                Fx.schedule 50, Fx.emitLoaded id])) := by
  simp only [create_tab_content, getOrInsert_present _ _ _ h, hk]
  split
  · rfl
  · cases outcome
    · split
      · split <;> rfl
      · rename_i hT
        exact absurd trivial hT
    · rfl

theorem load_async_errors (m : MW) (id : String) (page : Nat) :
    (load_tab_content_async m id page).1.errors = m.errors := by
  simp only [load_tab_content_async]
  split <;> rfl

theorem load_async_guard (m : MW) (id : String) (page : Nat) :
    (load_tab_content_async m id page).1.guard = m.guard := by
  simp only [load_tab_content_async]
  split <;> rfl

theorem load_async_prevent (m : MW) (id : String) (page : Nat) :
    (load_tab_content_async m id page).1.prevent_auto_loading = m.prevent_auto_loading := by
  simp only [load_tab_content_async]
  split <;> rfl

theorem load_async_initial (m : MW) (id : String) (page : Nat) :
    (load_tab_content_async m id page).1.initial_tab = m.initial_tab := by
  simp only [load_tab_content_async]
  split <;> rfl

theorem on_tab_switch_errors (m : MW) (page : Nat) :
    (on_tab_switch m page).1.errors = m.errors := by
  simp only [on_tab_switch]
  repeat' split
  all_goals simp [load_async_errors, show_loading_errors]

theorem on_tab_switch_prevent (m : MW) (page : Nat) :
    (on_tab_switch m page).1.prevent_auto_loading = m.prevent_auto_loading := by
  simp only [on_tab_switch]
  repeat' split
  all_goals simp [load_async_prevent, show_loading_prevent]

theorem on_tab_switch_initial (m : MW) (page : Nat) :
    (on_tab_switch m page).1.initial_tab = m.initial_tab := by
  simp only [on_tab_switch]
  repeat' split
  all_goals simp [load_async_initial, show_loading_initial]

/-- Exact behaviour of `on_tab_switch` on states with unique keys and
in-range page numbers: either nothing but effects happens, or a
not-loaded not-loading slot sits on the target page, the static guard
is taken, and the slot is either loaded immediately (power) — marking
it loading and scheduling its construction — or handed to the deferred
pair; the guard release is scheduled either way. -/
theorem on_tab_switch_char (m : MW) (page : Nat)
    (hK : (m.tabs.map Prod.fst).Nodup)
    (hLen : ∀ p ∈ m.tabs, p.2.page_num < m.tabs.length) :
    ((on_tab_switch m page).1.tabs = m.tabs ∧
     (on_tab_switch m page).1.pending = m.pending ∧
     (on_tab_switch m page).1.guard = m.guard) ∨
    (∃ t, m.tabs.find?
        (fun p => p.2.page_num = page && !p.2.loaded && !p.2.loading) = some t ∧
      alookup m.tabs t.1 = some t.2 ∧ t.2.page_num = page ∧
      t.2.loaded = false ∧ t.2.loading = false ∧ m.guard = false ∧
      (on_tab_switch m page).1.guard = true ∧
      ((t.1 = "power" ∧
        (on_tab_switch m page).1.tabs =
          aset m.tabs t.1 ({ t.2 with loading := true, page_num := page }) ∧
        (on_tab_switch m page).1.pending =
          m.pending ++ [Pending.create t.1 page, Pending.guardReset]) ∨
       (t.1 ≠ "power" ∧
        (on_tab_switch m page).1.tabs = m.tabs ∧
        (on_tab_switch m page).1.pending =
          m.pending ++ [Pending.showAndLoad t.1 page, Pending.guardReset]))) := by
  by_cases hg : m.guard = true
  · left
    simp [on_tab_switch, hg]
  · have hg0 : m.guard = false := by simpa using hg
    rw [on_tab_switch]
    simp only [hg0, Bool.false_eq_true, if_false]
    split
    · left
      exact ⟨rfl, rfl, hg0⟩
    · cases hf : m.tabs.find?
          (fun p => p.2.page_num = page && !p.2.loaded && !p.2.loading) with
      | none =>
          simp only [hf]
          left
          split <;> exact ⟨rfl, rfl, hg0⟩
      | some t =>
          simp only [hf]
          have hmem := List.mem_of_find?_eq_some hf
          have hpred := List.find?_some hf
          simp only [Bool.and_eq_true, Bool.not_eq_true', decide_eq_true_eq] at hpred
          have hpage : t.2.page_num = page := hpred.1.1
          have hld : t.2.loaded = false := hpred.1.2
          have hlg : t.2.loading = false := hpred.2
          have halk : alookup m.tabs t.1 = some t.2 := alookup_of_mem m.tabs t hK hmem
          have hpl : page < m.tabs.length := hpage ▸ hLen t hmem
          right
          refine ⟨t, by rfl, halk, hpage, hld, hlg, by trivial, ?_, ?_⟩
          · split
            · rename_i hpw
              have halk1 : alookup (MW.tabs { m with guard := true }) t.1 = some t.2 := halk
              have hkn : knownTab t.1 = true := by rw [hpw]; decide
              rw [show_loading_set { m with guard := true } t.1 page t.2 halk1 hkn hld hlg hpl]
              split
              · rw [load_async_char _ t.1 page ({ t.2 with loading := true, page_num := page })
                    (alookup_aset_self _ _ _)]
                simp [hld]
              · rw [load_async_char _ t.1 page ({ t.2 with loading := true, page_num := page })
                    (alookup_aset_self _ _ _)]
                simp [hld]
            · rfl
          · split
            · rename_i hpw
              left
              have halk1 : alookup (MW.tabs { m with guard := true }) t.1 = some t.2 := halk
              have hkn : knownTab t.1 = true := by rw [hpw]; decide
              refine ⟨hpw, ?_, ?_⟩
              · rw [show_loading_set { m with guard := true } t.1 page t.2 halk1 hkn hld hlg hpl]
                split
                · rw [load_async_char _ t.1 page ({ t.2 with loading := true, page_num := page })
                      (alookup_aset_self _ _ _)]
                  simp [hld]
                · rw [load_async_char _ t.1 page ({ t.2 with loading := true, page_num := page })
                      (alookup_aset_self _ _ _)]
                  simp [hld]
              · rw [show_loading_set { m with guard := true } t.1 page t.2 halk1 hkn hld hlg hpl]
                split
                · rw [load_async_char _ t.1 page ({ t.2 with loading := true, page_num := page })
                      (alookup_aset_self _ _ _)]
                  simp [hld]
                · rw [load_async_char _ t.1 page ({ t.2 with loading := true, page_num := page })
                      (alookup_aset_self _ _ _)]
                  simp [hld]
            · rename_i hpw
              right
              exact ⟨hpw, rfl, rfl⟩

theorem mem_of_alookup (l : List (String × α)) (k : String) (v : α)
    (h : alookup l k = some v) : (k, v) ∈ l := by
  unfold alookup at h
  cases hf : l.find? (fun p => p.1 = k) with
  | none => rw [hf] at h; cases h
  | some p =>
      rw [hf] at h
      have hm := List.mem_of_find?_eq_some hf
      have hp := List.find?_some hf
      simp only [decide_eq_true_eq] at hp
      injection h with h2
      rw [← hp, ← h2]
      exact hm

theorem slotStateT_tabs_ne (tabs : List (String × TabInfo))
    (errs : List (String × String)) (id : String) (v : TabInfo) (j : String)
    (hj : id ≠ j) :
    slotStateT (aset tabs id v) errs j = slotStateT tabs errs j := by
  simp [slotStateT, alookup_aset_ne tabs id j v hj]

theorem slotStateT_errs_ne (tabs : List (String × TabInfo))
    (errs : List (String × String)) (id : String) (e : String) (j : String)
    (hj : id ≠ j) :
    slotStateT tabs (aset errs id e) j = slotStateT tabs errs j := by
  simp [slotStateT, alookup_aset_ne errs id j e hj]

theorem slotStateT_aset_self (tabs : List (String × TabInfo))
    (errs : List (String × String)) (id : String) (v : TabInfo) :
    slotStateT (aset tabs id v) errs id =
      (if v.loaded then SlotState.Loaded
       else if v.loading then SlotState.Loading
       else
        match alookup errs id with
        | some _ => SlotState.Failed
        | none => SlotState.Placeholder) := by
  simp [slotStateT, alookup_aset_self]

theorem slotStateT_of_alookup (tabs : List (String × TabInfo))
    (errs : List (String × String)) (id : String) (info : TabInfo)
    (h : alookup tabs id = some info) :
    slotStateT tabs errs id =
      (if info.loaded then SlotState.Loaded
       else if info.loading then SlotState.Loading
       else
        match alookup errs id with
        | some _ => SlotState.Failed
        | none => SlotState.Placeholder) := by
  simp [slotStateT, h]

theorem slotStateT_not_started (tabs : List (String × TabInfo))
    (errs : List (String × String)) (id : String) (info : TabInfo)
    (h : alookup tabs id = some info) (hl : info.loaded = false)
    (hg : info.loading = false) :
    slotStateT tabs errs id = SlotState.Placeholder ∨
    slotStateT tabs errs id = SlotState.Failed := by
  rw [slotStateT_of_alookup tabs errs id info h, hl, hg]
  cases alookup errs id <;> simp

/-- Contract facts every stored slot satisfies in an invariant state. -/
theorem inv_contract (m : MW) (id : String) (info : TabInfo) (hInv : Inv m)
    (h : alookup m.tabs id = some info) :
    knownTab id = true ∧ info.page_num < m.tabs.length := by
  have hm := mem_of_alookup _ _ _ h
  exact ⟨hInv.known _ hm, hInv.pages _ hm⟩

/-- State effect of `show_loading_indicator` followed by
`load_tab_content_async`, the load-start sequence every caller uses. -/
theorem SL_LA_state (m : MW) (id : String) (page : Nat) (info : TabInfo)
    (h : alookup m.tabs id = some info) (hk : knownTab id = true)
    (hpl : page < m.tabs.length) :
    (info.loaded = true ∧
      (load_tab_content_async (show_loading_indicator m id page).1 id page).1 = m) ∨
    (info.loaded = false ∧ info.loading = true ∧
      (load_tab_content_async (show_loading_indicator m id page).1 id page).1 =
        { m with pending := m.pending ++ [Pending.create id page] }) ∨
    (info.loaded = false ∧ info.loading = false ∧
      (load_tab_content_async (show_loading_indicator m id page).1 id page).1 =
        (if m.current_page ≠ page then
          { m with tabs := aset m.tabs id ({ info with loading := true, page_num := page }),
                   pending := m.pending ++ [Pending.create id page],
                   current_page := page }
         else
          { m with tabs := aset m.tabs id ({ info with loading := true, page_num := page }),
                   pending := m.pending ++ [Pending.create id page] })) := by
  cases hl : info.loaded with
  | true =>
      left
      refine ⟨rfl, ?_⟩
      rw [show_loading_noop m id page info h (Or.inl hl)]
      rw [load_async_char m id page info h]
      simp [hl]
  | false =>
      cases hg : info.loading with
      | true =>
          right; left
          refine ⟨rfl, rfl, ?_⟩
          rw [show_loading_noop m id page info h (Or.inr hg)]
          rw [load_async_char m id page info h]
          simp [hl]
      | false =>
          right; right
          refine ⟨rfl, rfl, ?_⟩
          rw [show_loading_set m id page info h hk hl hg hpl]
          split
          · rw [load_async_char _ id page ({ info with loading := true, page_num := page })
                (alookup_aset_self _ _ _)]
            simp [hl]
          · rw [load_async_char _ id page ({ info with loading := true, page_num := page })
                (alookup_aset_self _ _ _)]
            simp [hl]

/-! Preservation of the structural invariant. -/

theorem inv_tabs_aset (m : MW) (id : String) (info v : TabInfo) (hInv : Inv m)
    (h : alookup m.tabs id = some info) (hpg : v.page_num = info.page_num) :
    ((aset m.tabs id v).map Prod.fst).Nodup ∧
    (∀ p ∈ aset m.tabs id v, knownTab p.1 = true) ∧
    (∀ p ∈ aset m.tabs id v, p.2.page_num < (aset m.tabs id v).length) ∧
    ((aset m.tabs id v).map (fun p => p.2.page_num)).Nodup := by
  have hm := mem_of_alookup _ _ _ h
  refine ⟨?_, ?_, ?_, ?_⟩
  · rw [aset_map_fst m.tabs id v info h]
    exact hInv.keys
  · intro p hp
    rcases mem_aset _ _ _ p hp with hin | he
    · exact hInv.known p hin
    · rw [he]
      exact hInv.known (id, info) hm
  · intro p hp
    rw [length_aset m.tabs id v info h]
    rcases mem_aset _ _ _ p hp with hin | he
    · exact hInv.pages p hin
    · rw [he]
      simpa [hpg] using hInv.pages (id, info) hm
  · rw [aset_map_page m.tabs id v info h hpg]
    exact hInv.pagesN

/-- Invariance under a field-preserving rebuild (only `current_page`,
`guard` or other irrelevant fields differ). -/
theorem inv_congr (m m' : MW) (hInv : Inv m) (htb : m'.tabs = m.tabs)
    (herr : m'.errors = m.errors) (hpd : m'.pending = m.pending) : Inv m' := by
  refine ⟨?_, ?_, ?_, ?_, ?_, ?_⟩ <;> rw [htb] <;> try rw [hpd]
  · exact hInv.keys
  · exact hInv.known
  · exact hInv.pages
  · exact hInv.pagesN
  · exact hInv.pendSL
  · intro id pg hmem
    rw [herr]
    exact hInv.pendCr id pg hmem

/-- Invariance under appending well-formed continuations with the tab
registry and error map untouched. -/
theorem inv_append (m : MW) (hInv : Inv m) (newPend : List Pending)
    (hnew : ∀ q ∈ newPend,
      (∃ id pg info, q = Pending.create id pg ∧ alookup m.tabs id = some info ∧
        info.page_num = pg ∧
        (info.loading = true ∨ info.loaded = true ∨ (alookup m.errors id).isSome = true)) ∨
      (∃ id pg info, q = Pending.showAndLoad id pg ∧ alookup m.tabs id = some info ∧
        info.page_num = pg) ∨
      q = Pending.guardReset)
    (m' : MW) (htb : m'.tabs = m.tabs) (herr : m'.errors = m.errors)
    (hpd : m'.pending = m.pending ++ newPend) : Inv m' := by
  refine ⟨?_, ?_, ?_, ?_, ?_, ?_⟩ <;> rw [htb] <;> try rw [hpd]
  · exact hInv.keys
  · exact hInv.known
  · exact hInv.pages
  · exact hInv.pagesN
  · intro id pg hmem
    rcases List.mem_append.mp hmem with hold | hq
    · exact hInv.pendSL id pg hold
    · rcases hnew _ hq with ⟨i2, p2, i3, he, _⟩ | ⟨i2, p2, i3, he, halk, hpg⟩ | he
      · cases he
      · cases he
        exact ⟨i3, halk, hpg⟩
      · cases he
  · intro id pg hmem
    rw [herr]
    rcases List.mem_append.mp hmem with hold | hq
    · exact hInv.pendCr id pg hold
    · rcases hnew _ hq with ⟨i2, p2, i3, he, halk, hpg, hcond⟩ | ⟨i2, p2, i3, he, _⟩ | he
      · cases he
        exact ⟨i3, halk, hpg, hcond⟩
      · cases he
      · cases he

/-- Invariance under updating one slot (same page number, state past
`Placeholder`) and appending continuations for that slot. -/
theorem inv_update (m : MW) (id : String) (info v : TabInfo) (hInv : Inv m)
    (h : alookup m.tabs id = some info) (hpg : v.page_num = info.page_num)
    (hcond : v.loading = true ∨ v.loaded = true ∨ (alookup m.errors id).isSome = true)
    (newPend : List Pending)
    (hnew : ∀ q ∈ newPend, q = Pending.create id v.page_num ∨ q = Pending.guardReset)
    (m' : MW) (htb : m'.tabs = aset m.tabs id v) (herr : m'.errors = m.errors)
    (hpd : m'.pending = m.pending ++ newPend) : Inv m' := by
  obtain ⟨hkeys, hknown, hpages, hpagesN⟩ := inv_tabs_aset m id info v hInv h hpg
  refine ⟨?_, ?_, ?_, ?_, ?_, ?_⟩ <;> rw [htb] <;> try rw [hpd]
  · exact hkeys
  · exact hknown
  · exact hpages
  · exact hpagesN
  · intro id' pg hmem
    rcases List.mem_append.mp hmem with hold | hq
    · obtain ⟨info2, halk2, hpg2⟩ := hInv.pendSL id' pg hold
      by_cases hid : id = id'
      · subst hid
        rw [h] at halk2
        injection halk2 with halk2
        subst halk2
        exact ⟨v, alookup_aset_self _ _ _, by rw [hpg, hpg2]⟩
      · exact ⟨info2, by rw [alookup_aset_ne _ _ _ _ hid]; exact halk2, hpg2⟩
    · rcases hnew _ hq with he | he <;> cases he
  · intro id' pg hmem
    rw [herr]
    rcases List.mem_append.mp hmem with hold | hq
    · obtain ⟨info2, halk2, hpg2, hcond2⟩ := hInv.pendCr id' pg hold
      by_cases hid : id = id'
      · subst hid
        rw [h] at halk2
        injection halk2 with halk2
        subst halk2
        exact ⟨v, alookup_aset_self _ _ _, by rw [hpg, hpg2], hcond⟩
      · exact ⟨info2, by rw [alookup_aset_ne _ _ _ _ hid]; exact halk2, hpg2, hcond2⟩
    · rcases hnew _ hq with he | he
      · cases he
        exact ⟨v, alookup_aset_self _ _ _, rfl, hcond⟩
      · cases he

/-- Invariance under updating one slot to `Failed` (loading cleared,
error recorded). -/
theorem inv_fail (m : MW) (id : String) (info : TabInfo) (e : String)
    (hInv : Inv m) (h : alookup m.tabs id = some info)
    (m' : MW)
    (htb : m'.tabs = aset m.tabs id ({ info with loading := false }))
    (herr : m'.errors = aset m.errors id e)
    (hpd : m'.pending = m.pending) : Inv m' := by
  obtain ⟨hkeys, hknown, hpages, hpagesN⟩ :=
    inv_tabs_aset m id info ({ info with loading := false }) hInv h rfl
  refine ⟨?_, ?_, ?_, ?_, ?_, ?_⟩ <;> rw [htb] <;> try rw [hpd]
  · exact hkeys
  · exact hknown
  · exact hpages
  · exact hpagesN
  · intro id' pg hmem
    obtain ⟨info2, halk2, hpg2⟩ := hInv.pendSL id' pg hmem
    by_cases hid : id = id'
    · subst hid
      rw [h] at halk2
      injection halk2 with halk2
      subst halk2
      exact ⟨{ info with loading := false }, alookup_aset_self _ _ _, hpg2⟩
    · exact ⟨info2, by rw [alookup_aset_ne _ _ _ _ hid]; exact halk2, hpg2⟩
  · intro id' pg hmem
    rw [herr]
    obtain ⟨info2, halk2, hpg2, _⟩ := hInv.pendCr id' pg hmem
    by_cases hid : id = id'
    · subst hid
      rw [h] at halk2
      injection halk2 with halk2
      subst halk2
      refine ⟨{ info with loading := false }, alookup_aset_self _ _ _, hpg2, ?_⟩
      right; right
      rw [alookup_aset_self]
      rfl
    · obtain ⟨i2, halk3, hpg3, hcond3⟩ := hInv.pendCr id' pg hmem
      refine ⟨i2, by rw [alookup_aset_ne _ _ _ _ hid]; exact halk3, hpg3, ?_⟩
      rcases hcond3 with hc | hc | hc
      · exact Or.inl hc
      · exact Or.inr (Or.inl hc)
      · right; right
        rw [alookup_aset_ne _ _ _ _ hid]
        exact hc

theorem inv_SL_LA (m : MW) (id : String) (page : Nat) (info : TabInfo)
    (hInv : Inv m) (h : alookup m.tabs id = some info) (hpg : info.page_num = page) :
    Inv (load_tab_content_async (show_loading_indicator m id page).1 id page).1 := by
  obtain ⟨hk, hpl⟩ := inv_contract m id info hInv h
  rcases SL_LA_state m id page info h hk (hpg ▸ hpl) with
    ⟨hl, he⟩ | ⟨hl, hg, he⟩ | ⟨hl, hg, he⟩
  · rw [he]; exact hInv
  · rw [he]
    refine inv_append m hInv [Pending.create id page] ?_ _ rfl rfl rfl
    intro q hq
    simp only [List.mem_singleton] at hq
    subst hq
    exact Or.inl ⟨id, page, info, rfl, h, hpg, Or.inl hg⟩
  · rw [he]
    split
    · refine inv_update m id info ({ info with loading := true, page_num := page })
        hInv h (by simp [hpg]) (Or.inl rfl) [Pending.create id page] ?_ _ rfl rfl rfl
      intro q hq
      simp only [List.mem_singleton] at hq
      subst hq
      exact Or.inl rfl
    · refine inv_update m id info ({ info with loading := true, page_num := page })
        hInv h (by simp [hpg]) (Or.inl rfl) [Pending.create id page] ?_ _ rfl rfl rfl
      intro q hq
      simp only [List.mem_singleton] at hq
      subst hq
      exact Or.inl rfl

/-- `create_tab_content` when the factory throws. -/
theorem create_char_throw (m : MW) (id : String) (e : String) (info : TabInfo)
    (h : alookup m.tabs id = some info) (hk : knownTab id = true) :
    create_tab_content m id (some e) =
      (if info.loaded then (m, [])
       else
        ({ m with tabs := aset m.tabs id ({ info with loading := false }),
                  errors := aset m.errors id e },
         [Fx.factoryRun id])) := by
  rw [create_char m id (some e) info h hk]

/-- `create_tab_content` when the factory succeeds. -/
theorem create_char_ok (m : MW) (id : String) (info : TabInfo)
    (h : alookup m.tabs id = some info) (hk : knownTab id = true) :
    create_tab_content m id none =
      (if info.loaded then (m, [])
       else
        if m.current_page ≠ info.page_num then
          ({ m with tabs := aset m.tabs id ({ info with loaded := true, loading := false }),
                    current_page := info.page_num },
           [Fx.factoryRun id, Fx.swapWidget info.page_num, Fx.setPage info.page_num,
            Fx.schedule 50, Fx.emitLoaded id])
        else
          ({ m with tabs := aset m.tabs id ({ info with loaded := true, loading := false }) },
           [Fx.factoryRun id, Fx.swapWidget info.page_num,
            Fx.schedule 50, Fx.emitLoaded id])) := by
  rw [create_char m id none info h hk]

theorem inv_CR (m : MW) (id : String) (outcome : Option String) (info : TabInfo)
    (hInv : Inv m) (h : alookup m.tabs id = some info) :
    Inv (create_tab_content m id outcome).1 := by
  have hk := (inv_contract m id info hInv h).1
  rcases outcome with _ | e
  · rw [create_char_ok m id info h hk]
    split
    · exact hInv
    · split
      · refine inv_update m id info ({ info with loaded := true, loading := false })
          hInv h rfl (Or.inr (Or.inl rfl)) [] ?_ _ rfl rfl (by simp)
        intro q hq
        simp at hq
      · refine inv_update m id info ({ info with loaded := true, loading := false })
          hInv h rfl (Or.inr (Or.inl rfl)) [] ?_ _ rfl rfl (by simp)
        intro q hq
        simp at hq
  · rw [create_char_throw m id e info h hk]
    split
    · exact hInv
    · exact inv_fail m id info e hInv h _ rfl rfl rfl

theorem inv_OTS (m : MW) (page : Nat) (hInv : Inv m) :
    Inv (on_tab_switch m page).1 := by
  rcases on_tab_switch_char m page hInv.keys hInv.pages with
    ⟨ht, hp, _⟩ | ⟨t, _, halk, hpage, hld, hlg, _, _, hcase⟩
  · exact inv_congr m _ hInv ht (on_tab_switch_errors m page) hp
  · rcases hcase with ⟨hpw, htb, hpd⟩ | ⟨hpw, htb, hpd⟩
    · refine inv_update m t.1 t.2 ({ t.2 with loading := true, page_num := page })
        hInv halk (by simp [hpage]) (Or.inl rfl)
        [Pending.create t.1 page, Pending.guardReset] ?_ _ htb
        (on_tab_switch_errors m page) hpd
      intro q hq
      simp only [List.mem_cons, List.mem_singleton, List.not_mem_nil, or_false] at hq
      rcases hq with hq | hq
      · subst hq; exact Or.inl rfl
      · subst hq; exact Or.inr rfl
    · refine inv_append m hInv [Pending.showAndLoad t.1 page, Pending.guardReset] ?_ _ htb
        (on_tab_switch_errors m page) hpd
      intro q hq
      simp only [List.mem_cons, List.mem_singleton, List.not_mem_nil, or_false] at hq
      rcases hq with hq | hq
      · subst hq
        exact Or.inr (Or.inl ⟨t.1, page, t.2, rfl, halk, hpage⟩)
      · subst hq
        exact Or.inr (Or.inr rfl)

theorem set_current_page_cases (m : MW) (page : Nat) :
    (m.current_page = page ∧ set_current_page m page = (m, [])) ∨
    (m.current_page ≠ page ∧
      (set_current_page m page).1 = { (on_tab_switch m page).1 with current_page := page } ∧
      (set_current_page m page).2 = Fx.setPage page :: (on_tab_switch m page).2) := by
  unfold set_current_page
  split
  · left; exact ⟨‹_›, rfl⟩
  · right; exact ⟨‹_›, rfl, rfl⟩

theorem inv_SCP (m : MW) (page : Nat) (hInv : Inv m) :
    Inv (set_current_page m page).1 := by
  rcases set_current_page_cases m page with ⟨_, he⟩ | ⟨_, he, _⟩
  · rw [he]; exact hInv
  · rw [he]
    exact inv_congr _ _ (inv_OTS m page hInv) rfl rfl rfl

theorem inv_click (m : MW) (id : String) (hInv : Inv m) :
    Inv (clickLabel m id).1 := by
  unfold clickLabel
  cases halk : alookup m.tabs id with
  | none => simp only [halk]; exact hInv
  | some info =>
      simp only [halk]
      have hInv0 := inv_SCP m info.page_num hInv
      cases halk2 : alookup (set_current_page m info.page_num).1.tabs id with
      | none => simp only [halk2]; exact hInv0
      | some info2 =>
          simp only [halk2]
          split
          · exact inv_SL_LA _ id info2.page_num info2 hInv0 halk2 rfl
          · exact hInv0

theorem inv_switchTo (m : MW) (id : String) (hInv : Inv m) :
    Inv (switch_to_tab m id).1 := by
  unfold switch_to_tab
  cases halk : alookup m.tabs id with
  | none => simp only [halk]; exact hInv
  | some info =>
      simp only [halk]
      have hInv0 := inv_SCP m info.page_num hInv
      cases halk2 : alookup (set_current_page m info.page_num).1.tabs id with
      | none => simp only [halk2]; exact hInv0
      | some info2 =>
          simp only [halk2]
          split
          · exact inv_SL_LA _ id info2.page_num info2 hInv0 halk2 rfl
          · split
            · exact hInv0
            · exact hInv0

theorem inv_erase (m : MW) (i : Nat) (hInv : Inv m) :
    Inv { m with pending := m.pending.eraseIdx i } := by
  refine ⟨hInv.keys, hInv.known, hInv.pages, hInv.pagesN, ?_, ?_⟩
  · intro id pg hmem
    exact hInv.pendSL id pg ((List.eraseIdx_sublist m.pending i).subset hmem)
  · intro id pg hmem
    exact hInv.pendCr id pg ((List.eraseIdx_sublist m.pending i).subset hmem)

theorem inv_fire (m : MW) (i : Nat) (outcome : Option String) (hInv : Inv m) :
    Inv (step m (Step.fire i outcome)).1 := by
  simp only [step]
  cases hget : m.pending.get? i with
  | none => simp only [hget]; exact hInv
  | some ev =>
      simp only [hget]
      have hmem : ev ∈ m.pending := List.get?_mem hget
      have hInv0 : Inv { m with pending := m.pending.eraseIdx i } := inv_erase m i hInv
      cases ev with
      | showAndLoad id pg =>
          obtain ⟨info, halk, hpg⟩ := hInv.pendSL id pg hmem
          exact inv_SL_LA _ id pg info hInv0 halk hpg
      | create id pg =>
          obtain ⟨info, halk, _, _⟩ := hInv.pendCr id pg hmem
          exact inv_CR _ id outcome info hInv0 halk
      | guardReset => exact inv_congr _ _ hInv0 rfl rfl rfl

theorem inv_step (m : MW) (s : Step) (hInv : Inv m) : Inv (step m s).1 := by
  cases s with
  | switchTo id => exact inv_switchTo m id hInv
  | click id => exact inv_click m id hInv
  | nbSwitch page =>
      simp only [step]
      exact inv_congr _ _ (inv_OTS m page hInv) rfl rfl rfl
  | fire i outcome => exact inv_fire m i outcome hInv

theorem inv_mkInit (ids : List String) (initial : String) (hN : ids.Nodup)
    (hK : ∀ id ∈ ids, knownTab id = true) : Inv (mkInit ids initial) := by
  have hfst : (mkInit ids initial).tabs.map Prod.fst = ids := by
    simp [mkInit, List.map_map]
    exact List.enum_map_snd ids
  have hpg : (mkInit ids initial).tabs.map (fun p => p.2.page_num) =
      List.range ids.length := by
    simp [mkInit, List.map_map]
    exact List.enum_map_fst ids
  have hlen : (mkInit ids initial).tabs.length = ids.length := by
    simp [mkInit]
  refine ⟨?_, ?_, ?_, ?_, ?_, ?_⟩
  · rw [hfst]; exact hN
  · intro p hp
    refine hK p.1 ?_
    rw [← hfst]
    exact List.mem_map_of_mem Prod.fst hp
  · intro p hp
    rw [hlen]
    have : p.2.page_num ∈ List.range ids.length := by
      rw [← hpg]
      exact List.mem_map_of_mem (fun p => p.2.page_num) hp
    exact List.mem_range.mp this
  · rw [hpg]; exact List.nodup_range ids.length
  · intro id pg hmem
    simp [mkInit] at hmem
  · intro id pg hmem
    simp [mkInit] at hmem

theorem Reachable_inv (m : MW) (hR : Reachable m) : Inv m := by
  induction hR with
  | init m h =>
      obtain ⟨ids, initial, hN, hK, he⟩ := h
      rw [he]
      exact inv_mkInit ids initial hN hK
  | next m s _ ih => exact inv_step m s ih

/-! Per-slot transition lemmas. -/

theorem okTrans_refl (a : SlotState) : okTrans a a := Or.inl rfl

theorem slotState_congr (m m' : MW) (j : String) (ht : m'.tabs = m.tabs)
    (he : m'.errors = m.errors) : slotState m' j = slotState m j := by
  simp [slotState, ht, he]

/-- The load-start sequence leaves every other slot unchanged. -/
theorem SL_LA_slot_ne (m : MW) (id : String) (page : Nat) (info : TabInfo)
    (h : alookup m.tabs id = some info) (hk : knownTab id = true)
    (hpl : page < m.tabs.length) (j : String) (hj : j ≠ id) :
    slotState (load_tab_content_async (show_loading_indicator m id page).1 id page).1 j =
      slotState m j := by
  rcases SL_LA_state m id page info h hk hpl with ⟨_, he⟩ | ⟨_, _, he⟩ | ⟨_, _, he⟩
  · rw [he]
  · rw [he]
    rfl
  · rw [he]
    split
    · exact slotStateT_tabs_ne m.tabs m.errors id _ j (fun hx => hj hx.symm)
    · exact slotStateT_tabs_ne m.tabs m.errors id _ j (fun hx => hj hx.symm)

/-- The load-start sequence on a placeholder or failed slot makes it
`Loading`. -/
theorem SL_LA_slot_self (m : MW) (id : String) (page : Nat) (info : TabInfo)
    (h : alookup m.tabs id = some info) (hk : knownTab id = true)
    (hpl : page < m.tabs.length) (hl : info.loaded = false) (hg : info.loading = false) :
    slotState (load_tab_content_async (show_loading_indicator m id page).1 id page).1 id =
      SlotState.Loading := by
  rcases SL_LA_state m id page info h hk hpl with ⟨hl2, _⟩ | ⟨_, hg2, _⟩ | ⟨_, _, he⟩
  · rw [hl2] at hl; cases hl
  · rw [hg2] at hg; cases hg
  · rw [he]
    split
    · show slotStateT (aset m.tabs id _) m.errors id = SlotState.Loading
      rw [slotStateT_aset_self]
      simp [hl]
    · show slotStateT (aset m.tabs id _) m.errors id = SlotState.Loading
      rw [slotStateT_aset_self]
      simp [hl]

theorem trans_SL_LA (m : MW) (id : String) (page : Nat) (info : TabInfo)
    (h : alookup m.tabs id = some info) (hk : knownTab id = true)
    (hpl : page < m.tabs.length) (j : String) :
    okTrans (slotState m j)
      (slotState (load_tab_content_async (show_loading_indicator m id page).1 id page).1 j) := by
  by_cases hj : j = id
  · subst hj
    cases hl : info.loaded with
    | true =>
        rcases SL_LA_state m j page info h hk hpl with ⟨_, he⟩ | ⟨hl2, _, _⟩ | ⟨hl2, _, _⟩
        · rw [he]; exact okTrans_refl _
        · rw [hl] at hl2; cases hl2
        · rw [hl] at hl2; cases hl2
    | false =>
        cases hg : info.loading with
        | true =>
            rcases SL_LA_state m j page info h hk hpl with ⟨hl2, _⟩ | ⟨_, _, he⟩ | ⟨_, hg2, _⟩
            · rw [hl2] at hl; cases hl
            · rw [he]; exact okTrans_refl _
            · rw [hg2] at hg; cases hg
        | false =>
            rw [SL_LA_slot_self m j page info h hk hpl hl hg]
            rcases slotStateT_not_started m.tabs m.errors j info h hl hg with hs | hs
            · right; left
              rw [show slotState m j = SlotState.Placeholder from hs]
              rfl
            · right; left
              rw [show slotState m j = SlotState.Failed from hs]
              rfl
  · rw [SL_LA_slot_ne m id page info h hk hpl j hj]
    exact okTrans_refl _

theorem trans_CR (m : MW) (id : String) (outcome : Option String) (info : TabInfo)
    (h : alookup m.tabs id = some info) (hk : knownTab id = true)
    (hcond : info.loading = true ∨ info.loaded = true ∨
      (alookup m.errors id).isSome = true) (j : String) :
    okTrans (slotState m j) (slotState (create_tab_content m id outcome).1 j) := by
  rcases outcome with _ | e
  · rw [create_char_ok m id info h hk]
    split
    · exact okTrans_refl _
    · rename_i hl
      simp only [Bool.not_eq_true] at hl
      have hslot : ∀ (m' : MW), m'.tabs = aset m.tabs id ({ info with loaded := true, loading := false }) →
          m'.errors = m.errors → okTrans (slotState m j) (slotState m' j) := by
        intro m' ht he
        by_cases hj : j = id
        · subst hj
          have hafter : slotState m' j = SlotState.Loaded := by
            rw [slotState, ht, he, slotStateT_aset_self]
            rfl
          rw [hafter]
          cases hg : info.loading with
          | true =>
              right; left
              have hbefore : slotState m j = SlotState.Loading := by
                rw [slotState, slotStateT_of_alookup m.tabs m.errors j info h, hl, hg]
                rfl
              rw [hbefore]
              rfl
          | false =>
              have herrS : (alookup m.errors j).isSome = true := by
                rcases hcond with hc | hc | hc
                · rw [hg] at hc; cases hc
                · rw [hl] at hc; cases hc
                · exact hc
              have hbefore : slotState m j = SlotState.Failed := by
                rw [slotState, slotStateT_of_alookup m.tabs m.errors j info h, hl, hg]
                cases halkE : alookup m.errors j with
                | none => rw [halkE] at herrS; cases herrS
                | some e2 => rfl
              rw [hbefore]
              right; right
              exact ⟨rfl, rfl⟩
        · left
          rw [slotState, ht, he, slotStateT_tabs_ne m.tabs m.errors id _ j (fun hx => hj hx.symm)]
          rfl
      split
      · exact hslot _ rfl rfl
      · exact hslot _ rfl rfl
  · rw [create_char_throw m id e info h hk]
    split
    · exact okTrans_refl _
    · rename_i hl
      simp only [Bool.not_eq_true] at hl
      have hslot : ∀ (m' : MW),
          m'.tabs = aset m.tabs id ({ info with loading := false }) →
          m'.errors = aset m.errors id e →
          okTrans (slotState m j) (slotState m' j) := by
        intro m' ht he2
        by_cases hj : j = id
        · subst hj
          have hafter : slotState m' j = SlotState.Failed := by
            unfold slotState
            rw [ht, he2, slotStateT_aset_self]
            simp [hl, alookup_aset_self]
          rw [hafter]
          cases hg : info.loading with
          | true =>
              right; left
              have hbefore : slotState m j = SlotState.Loading := by
                unfold slotState
                rw [slotStateT_of_alookup m.tabs m.errors j info h, hl, hg]
                rfl
              rw [hbefore]
              rfl
          | false =>
              have herrS : (alookup m.errors j).isSome = true := by
                rcases hcond with hc | hc | hc
                · rw [hg] at hc; cases hc
                · rw [hl] at hc; cases hc
                · exact hc
              have hbefore : slotState m j = SlotState.Failed := by
                unfold slotState
                rw [slotStateT_of_alookup m.tabs m.errors j info h, hl, hg]
                cases halkE : alookup m.errors j with
                | none => rw [halkE] at herrS; cases herrS
                | some e2 => rfl
              rw [hbefore]
              exact okTrans_refl _
        · left
          unfold slotState
          rw [ht, he2,
              slotStateT_tabs_ne m.tabs _ id _ j (fun hx => hj hx.symm),
              slotStateT_errs_ne m.tabs m.errors id e j (fun hx => hj hx.symm)]
      exact hslot _ rfl rfl

/-- Result state of the label-click handler: either only the page
switch happened, or the slot was neither loaded nor loading afterwards
and the load-start sequence ran on it. -/
theorem click_char (m : MW) (id : String) (info : TabInfo)
    (halk : alookup m.tabs id = some info) :
    ((clickLabel m id).1 = (set_current_page m info.page_num).1 ∧
     (∀ info2, alookup (set_current_page m info.page_num).1.tabs id = some info2 →
       info2.loaded = true ∨ info2.loading = true)) ∨
    (∃ info2, alookup (set_current_page m info.page_num).1.tabs id = some info2 ∧
      info2.loaded = false ∧ info2.loading = false ∧
      (clickLabel m id).1 =
        (load_tab_content_async
          (show_loading_indicator (set_current_page m info.page_num).1 id info2.page_num).1
          id info2.page_num).1) := by
  cases halk2 : alookup (set_current_page m info.page_num).1.tabs id with
  | none =>
      left
      constructor
      · unfold clickLabel
        simp only [halk, halk2]
      · intro info2 hx
        cases hx
  | some info2 =>
      by_cases hcond : (!info2.loaded && !info2.loading) = true
      · have hc2 := hcond
        simp only [Bool.and_eq_true, Bool.not_eq_true'] at hc2
        right
        refine ⟨info2, rfl, hc2.1, hc2.2, ?_⟩
        unfold clickLabel
        simp only [halk, halk2]
        rw [if_pos hcond]
      · left
        constructor
        · unfold clickLabel
          simp only [halk, halk2]
          rw [if_neg hcond]
        · intro info3 hx
          injection hx with hx
          subst hx
          cases hld : info2.loaded with
          | true => exact Or.inl rfl
          | false =>
              cases hlg : info2.loading with
              | true => exact Or.inr rfl
              | false =>
                  exfalso
                  exact hcond (by simp [hld, hlg])

/-- Result state of `switch_to_tab`: same dichotomy as the click. -/
theorem switchTo_char (m : MW) (id : String) (info : TabInfo)
    (halk : alookup m.tabs id = some info) :
    (switch_to_tab m id).1 = (set_current_page m info.page_num).1 ∨
    (∃ info2, alookup (set_current_page m info.page_num).1.tabs id = some info2 ∧
      info2.loaded = false ∧ info2.loading = false ∧
      (switch_to_tab m id).1 =
        (load_tab_content_async
          (show_loading_indicator (set_current_page m info.page_num).1 id info2.page_num).1
          id info2.page_num).1) := by
  cases halk2 : alookup (set_current_page m info.page_num).1.tabs id with
  | none =>
      left
      unfold switch_to_tab
      simp only [halk, halk2]
  | some info2 =>
      by_cases hcond : (!info2.loaded && !info2.loading) = true
      · have hc2 := hcond
        simp only [Bool.and_eq_true, Bool.not_eq_true'] at hc2
        right
        refine ⟨info2, rfl, hc2.1, hc2.2, ?_⟩
        unfold switch_to_tab
        simp only [halk, halk2]
        rw [if_pos hcond]
      · left
        unfold switch_to_tab
        simp only [halk, halk2]
        rw [if_neg hcond]
        split <;> rfl

/-- A slot that ends up neither loaded nor loading after the page
switch had the same lifecycle state before it: the only slot the
emitted `on_tab_switch` can modify it leaves `Loading`. -/
theorem scp_slot_eq_of_not_loading (m : MW) (page : Nat) (id : String)
    (info2 : TabInfo) (hInv : Inv m)
    (halk2 : alookup (set_current_page m page).1.tabs id = some info2)
    (hg2 : info2.loading = false) :
    slotState m id = slotState (set_current_page m page).1 id := by
  rcases set_current_page_cases m page with ⟨_, he⟩ | ⟨_, he, _⟩
  · rw [he]
  · rcases on_tab_switch_char m page hInv.keys hInv.pages with
      ⟨ht, _, _⟩ | ⟨t, _, halk, hpage, hld, hlg, _, _, hcase⟩
    · rw [he]
      exact (slotState_congr m _ id ht (on_tab_switch_errors m page)).symm
    · rcases hcase with ⟨hpw, htb, _⟩ | ⟨hpw, htb, _⟩
      · by_cases hid : t.1 = id
        · subst hid
          have hv : alookup (set_current_page m page).1.tabs t.1 =
              some ({ t.2 with loading := true, page_num := page }) := by
            rw [he]
            show alookup (on_tab_switch m page).1.tabs t.1 = _
            rw [htb]
            exact alookup_aset_self _ _ _
          rw [hv] at halk2
          injection halk2 with h3
          rw [← h3] at hg2
          simp at hg2
        · rw [he]
          unfold slotState
          show slotStateT m.tabs m.errors id =
            slotStateT (on_tab_switch m page).1.tabs (on_tab_switch m page).1.errors id
          rw [htb, on_tab_switch_errors,
              slotStateT_tabs_ne m.tabs m.errors t.1 _ id hid]
      · rw [he]
        exact (slotState_congr m _ id htb (on_tab_switch_errors m page)).symm

theorem trans_OTS (m : MW) (page : Nat) (hInv : Inv m) (j : String) :
    okTrans (slotState m j) (slotState (on_tab_switch m page).1 j) := by
  rcases on_tab_switch_char m page hInv.keys hInv.pages with
    ⟨ht, _, _⟩ | ⟨t, _, halk, hpage, hld, hlg, _, _, hcase⟩
  · left
    exact slotState_congr m _ j ht (on_tab_switch_errors m page)
  · rcases hcase with ⟨hpw, htb, _⟩ | ⟨hpw, htb, _⟩
    · by_cases hj : j = t.1
      · have hafter : slotState (on_tab_switch m page).1 j = SlotState.Loading := by
          unfold slotState
          rw [htb, on_tab_switch_errors m page, hj, slotStateT_aset_self]
          simp [hld]
        rw [hafter, hj]
        rcases slotStateT_not_started m.tabs m.errors t.1 t.2 halk hld hlg with hs | hs
        · right; left
          rw [show slotState m t.1 = SlotState.Placeholder from hs]
          rfl
        · right; left
          rw [show slotState m t.1 = SlotState.Failed from hs]
          rfl
      · left
        unfold slotState
        rw [htb, on_tab_switch_errors m page,
            slotStateT_tabs_ne m.tabs m.errors t.1 _ j (fun hx => hj hx.symm)]
    · left
      exact slotState_congr m _ j htb (on_tab_switch_errors m page)

theorem trans_SCP (m : MW) (page : Nat) (hInv : Inv m) (j : String) :
    okTrans (slotState m j) (slotState (set_current_page m page).1 j) := by
  rcases set_current_page_cases m page with ⟨_, he⟩ | ⟨_, he, _⟩
  · rw [he]
    exact okTrans_refl _
  · have hs : slotState (set_current_page m page).1 j =
        slotState (on_tab_switch m page).1 j := by
      rw [he]
      rfl
    rw [hs]
    exact trans_OTS m page hInv j

theorem trans_click (m : MW) (id : String) (hInv : Inv m) (j : String) :
    okTrans (slotState m j) (slotState (clickLabel m id).1 j) := by
  cases halk : alookup m.tabs id with
  | none =>
      have hres : (clickLabel m id).1 = m := by
        unfold clickLabel
        simp only [halk]
      rw [hres]
      exact okTrans_refl _
  | some info =>
      have hInv0 := inv_SCP m info.page_num hInv
      rcases click_char m id info halk with ⟨hEq, _⟩ | ⟨info2, halk2, hl2, hg2, hEq⟩
      · rw [hEq]
        exact trans_SCP m info.page_num hInv j
      · rw [hEq]
        obtain ⟨hk2, hpl2⟩ := inv_contract _ id info2 hInv0 halk2
        by_cases hj : j = id
        · subst hj
          rw [SL_LA_slot_self _ j info2.page_num info2 halk2 hk2 hpl2 hl2 hg2]
          rw [show slotState m j = slotState (set_current_page m info.page_num).1 j from
            scp_slot_eq_of_not_loading m info.page_num j info2 hInv halk2 hg2]
          rcases slotStateT_not_started _ _ j info2 halk2 hl2 hg2 with hs | hs
          · right; left
            rw [show slotState (set_current_page m info.page_num).1 j = _ from hs]
            rfl
          · right; left
            rw [show slotState (set_current_page m info.page_num).1 j = _ from hs]
            rfl
        · rw [SL_LA_slot_ne _ id info2.page_num info2 halk2 hk2 hpl2 j hj]
          exact trans_SCP m info.page_num hInv j

theorem trans_switchTo (m : MW) (id : String) (hInv : Inv m) (j : String) :
    okTrans (slotState m j) (slotState (switch_to_tab m id).1 j) := by
  cases halk : alookup m.tabs id with
  | none =>
      have hres : (switch_to_tab m id).1 = m := by
        unfold switch_to_tab
        simp only [halk]
      rw [hres]
      exact okTrans_refl _
  | some info =>
      have hInv0 := inv_SCP m info.page_num hInv
      rcases switchTo_char m id info halk with hEq | ⟨info2, halk2, hl2, hg2, hEq⟩
      · rw [hEq]
        exact trans_SCP m info.page_num hInv j
      · rw [hEq]
        obtain ⟨hk2, hpl2⟩ := inv_contract _ id info2 hInv0 halk2
        by_cases hj : j = id
        · subst hj
          rw [SL_LA_slot_self _ j info2.page_num info2 halk2 hk2 hpl2 hl2 hg2]
          rw [show slotState m j = slotState (set_current_page m info.page_num).1 j from
            scp_slot_eq_of_not_loading m info.page_num j info2 hInv halk2 hg2]
          rcases slotStateT_not_started _ _ j info2 halk2 hl2 hg2 with hs | hs
          · right; left
            rw [show slotState (set_current_page m info.page_num).1 j = _ from hs]
            rfl
          · right; left
            rw [show slotState (set_current_page m info.page_num).1 j = _ from hs]
            rfl
        · rw [SL_LA_slot_ne _ id info2.page_num info2 halk2 hk2 hpl2 j hj]
          exact trans_SCP m info.page_num hInv j

theorem trans_step (m : MW) (s : Step) (hInv : Inv m) (j : String) :
    okTrans (slotState m j) (slotState (step m s).1 j) := by
  cases s with
  | switchTo id => exact trans_switchTo m id hInv j
  | click id => exact trans_click m id hInv j
  | nbSwitch page => exact trans_OTS m page hInv j
  | fire i outcome =>
      simp only [step]
      cases hget : m.pending.get? i with
      | none =>
          simp only [hget]
          exact okTrans_refl _
      | some ev =>
          simp only [hget]
          have hmem : ev ∈ m.pending := List.get?_mem hget
          cases ev with
          | showAndLoad id pg =>
              obtain ⟨info, halk, hpg⟩ := hInv.pendSL id pg hmem
              obtain ⟨hk, hpl⟩ := inv_contract m id info hInv halk
              exact trans_SL_LA { m with pending := m.pending.eraseIdx i }
                id pg info halk hk (hpg ▸ hpl) j
          | create id pg =>
              obtain ⟨info, halk, _, hcond⟩ := hInv.pendCr id pg hmem
              have hk := (inv_contract m id info hInv halk).1
              exact trans_CR { m with pending := m.pending.eraseIdx i }
                id outcome info halk hk hcond j
          | guardReset => exact okTrans_refl _

/-! Behaviour of selections on loading, loaded and placeholder slots. -/

/-- When the slot on a page is loaded or loading, `on_tab_switch`
finds nothing to load there. -/
theorem find_load_none (m : MW) (hInv : Inv m) (id : String) (info : TabInfo)
    (halk : alookup m.tabs id = some info)
    (hfail : info.loaded = true ∨ info.loading = true) :
    m.tabs.find?
      (fun p => p.2.page_num = info.page_num && !p.2.loaded && !p.2.loading) = none := by
  rw [List.find?_eq_none]
  intro p hp
  by_cases hpg : p.2.page_num = info.page_num
  · have hpeq : p = (id, info) :=
      List.inj_on_of_nodup_map hInv.pagesN hp (mem_of_alookup _ _ _ halk) hpg
    rw [hpeq]
    rcases hfail with hf | hf <;> simp [hf]
  · simp [hpg]

/-- When the slot on a page is a placeholder (or failed), it is the
slot `on_tab_switch` finds. -/
theorem find_load_self (m : MW) (hInv : Inv m) (id : String) (info : TabInfo)
    (halk : alookup m.tabs id = some info)
    (hl : info.loaded = false) (hg : info.loading = false) :
    m.tabs.find?
      (fun p => p.2.page_num = info.page_num && !p.2.loaded && !p.2.loading) =
      some (id, info) := by
  cases hf : m.tabs.find?
      (fun p => p.2.page_num = info.page_num && !p.2.loaded && !p.2.loading) with
  | none =>
      exfalso
      have := List.find?_eq_none.mp hf (id, info) (mem_of_alookup _ _ _ halk)
      simp [hl, hg] at this
  | some t =>
      have hmem := List.mem_of_find?_eq_some hf
      have hpred := List.find?_some hf
      simp only [Bool.and_eq_true, Bool.not_eq_true', decide_eq_true_eq] at hpred
      have hpeq : t = (id, info) :=
        List.inj_on_of_nodup_map hInv.pagesN hmem (mem_of_alookup _ _ _ halk) hpred.1.1
      rw [hpeq]

/-- With nothing to load on the page, `on_tab_switch` changes no state. -/
theorem OTS_noload (m : MW) (page : Nat)
    (hfind : m.tabs.find?
      (fun p => p.2.page_num = page && !p.2.loaded && !p.2.loading) = none) :
    (on_tab_switch m page).1 = m := by
  unfold on_tab_switch
  simp only [hfind]
  repeat' split
  all_goals rfl

/-- With nothing to load on the page, every `on_tab_switch` effect is
visual. -/
theorem OTS_noload_fx (m : MW) (page : Nat)
    (hfind : m.tabs.find?
      (fun p => p.2.page_num = page && !p.2.loaded && !p.2.loading) = none) :
    (on_tab_switch m page).2.all Fx.visual = true := by
  unfold on_tab_switch
  simp only [hfind]
  repeat' split
  all_goals rfl

theorem SCP_noload_fields (m : MW) (page : Nat)
    (hfind : m.tabs.find?
      (fun p => p.2.page_num = page && !p.2.loaded && !p.2.loading) = none) :
    (set_current_page m page).1.tabs = m.tabs ∧
    (set_current_page m page).1.errors = m.errors ∧
    (set_current_page m page).1.pending = m.pending ∧
    (set_current_page m page).1.guard = m.guard := by
  rcases set_current_page_cases m page with ⟨_, he⟩ | ⟨_, he, _⟩
  · rw [he]
    exact ⟨rfl, rfl, rfl, rfl⟩
  · rw [he, OTS_noload m page hfind]
    exact ⟨rfl, rfl, rfl, rfl⟩

theorem SCP_fx_visual (m : MW) (page : Nat)
    (hfind : m.tabs.find?
      (fun p => p.2.page_num = page && !p.2.loaded && !p.2.loading) = none) :
    (set_current_page m page).2.all Fx.visual = true := by
  rcases set_current_page_cases m page with ⟨_, he⟩ | ⟨_, _, hfx⟩
  · rw [he]
    rfl
  · rw [hfx]
    simp [Fx.visual, OTS_noload_fx m page hfind]

/-- A click on a slot that is currently loading changes no state. -/
theorem click_loading_noop (m : MW) (id : String) (info : TabInfo) (hInv : Inv m)
    (halk : alookup m.tabs id = some info) (hg : info.loading = true)
    (_hl : info.loaded = false) :
    (clickLabel m id).1.tabs = m.tabs ∧
    (clickLabel m id).1.errors = m.errors ∧
    (clickLabel m id).1.pending = m.pending ∧
    (clickLabel m id).1.guard = m.guard := by
  have hfind := find_load_none m hInv id info halk (Or.inr hg)
  have hSCP := SCP_noload_fields m info.page_num hfind
  rcases click_char m id info halk with ⟨hEq, _⟩ | ⟨info2, halk2, _, hg2, _⟩
  · rw [hEq]
    exact hSCP
  · exfalso
    rw [hSCP.1, halk] at halk2
    injection halk2 with h2
    rw [← h2] at hg2
    rw [hg] at hg2
    cases hg2

/-- State components of the page switch emitted when clicking a
placeholder (or failed) slot: nothing changes, or the slot's own
deferred pair is scheduled (non-power), or the power slot starts
loading with its construction scheduled. -/
theorem SCP_placeholder (m : MW) (id : String) (info : TabInfo) (hInv : Inv m)
    (halk : alookup m.tabs id = some info)
    (hl : info.loaded = false) (hg : info.loading = false) :
    (set_current_page m info.page_num).1.errors = m.errors ∧
    (((set_current_page m info.page_num).1.tabs = m.tabs ∧
      (set_current_page m info.page_num).1.pending = m.pending) ∨
     (id = "power" ∧
      (set_current_page m info.page_num).1.tabs =
        aset m.tabs id ({ info with loading := true, page_num := info.page_num }) ∧
      (set_current_page m info.page_num).1.pending =
        m.pending ++ [Pending.create id info.page_num, Pending.guardReset]) ∨
     (id ≠ "power" ∧
      (set_current_page m info.page_num).1.tabs = m.tabs ∧
      (set_current_page m info.page_num).1.pending =
        m.pending ++ [Pending.showAndLoad id info.page_num, Pending.guardReset])) := by
  rcases set_current_page_cases m info.page_num with ⟨_, he⟩ | ⟨_, he, _⟩
  · rw [he]
    exact ⟨rfl, Or.inl ⟨rfl, rfl⟩⟩
  · rcases on_tab_switch_char m info.page_num hInv.keys hInv.pages with
      ⟨ht, hp, _⟩ | ⟨t, hf, _, _, _, _, _, _, hcase⟩
    · rw [he]
      exact ⟨on_tab_switch_errors m info.page_num, Or.inl ⟨ht, hp⟩⟩
    · have hself := find_load_self m hInv id info halk hl hg
      rw [hself] at hf
      injection hf with hf
      rcases hcase with ⟨hpw, htb, hpd⟩ | ⟨hpw, htb, hpd⟩
      · rw [he]
        refine ⟨on_tab_switch_errors m info.page_num, Or.inr (Or.inl ⟨?_, ?_, ?_⟩)⟩
        · rw [← hf] at hpw
          exact hpw
        · rw [htb, ← hf]
        · rw [hpd, ← hf]
      · rw [he]
        refine ⟨on_tab_switch_errors m info.page_num, Or.inr (Or.inr ⟨?_, ?_, ?_⟩)⟩
        · rw [← hf] at hpw
          exact hpw
        · rw [htb]
        · rw [hpd, ← hf]

/-- A click on a placeholder (or failed) slot performs exactly one
transition to `Loading`, schedules exactly one additional construction,
and lets the emitted switch-page handler add at most one deferred pair. -/
theorem click_start (m : MW) (id : String) (info : TabInfo) (hInv : Inv m)
    (halk : alookup m.tabs id = some info)
    (hl : info.loaded = false) (hg : info.loading = false) :
    slotState (clickLabel m id).1 id = SlotState.Loading ∧
    countCreates (clickLabel m id).1 id = countCreates m id + 1 ∧
    countPairs (clickLabel m id).1 id ≤ countPairs m id + 1 := by
  obtain ⟨herr0, hcase0⟩ := SCP_placeholder m id info hInv halk hl hg
  rcases click_char m id info halk with ⟨hEq, hwhy⟩ | ⟨info2, halk2, hl2, hg2, hEq⟩
  · rcases hcase0 with ⟨ht0, hp0⟩ | ⟨hpw, ht0, hp0⟩ | ⟨hpw, ht0, hp0⟩
    · exfalso
      have halk0 : alookup (set_current_page m info.page_num).1.tabs id = some info := by
        rw [ht0]
        exact halk
      rcases hwhy info halk0 with hx | hx
      · rw [hl] at hx; cases hx
      · rw [hg] at hx; cases hx
    · refine ⟨?_, ?_, ?_⟩
      · rw [hEq]
        unfold slotState
        rw [ht0, herr0, slotStateT_aset_self]
        simp [hl]
      · rw [hEq]
        unfold countCreates
        rw [hp0, List.countP_append]
        simp [countCreates]
      · rw [hEq]
        unfold countPairs
        rw [hp0, List.countP_append]
        simp [countPairs]
    · exfalso
      have halk0 : alookup (set_current_page m info.page_num).1.tabs id = some info := by
        rw [ht0]
        exact halk
      rcases hwhy info halk0 with hx | hx
      · rw [hl] at hx; cases hx
      · rw [hg] at hx; cases hx
  · have hInv0 := inv_SCP m info.page_num hInv
    obtain ⟨hk2, hpl2⟩ := inv_contract _ id info2 hInv0 halk2
    have hm0pend : ((set_current_page m info.page_num).1.pending = m.pending ∧
        countPairs (set_current_page m info.page_num).1 id = countPairs m id) ∨
        ((set_current_page m info.page_num).1.pending =
          m.pending ++ [Pending.showAndLoad id info.page_num, Pending.guardReset] ∧
         countPairs (set_current_page m info.page_num).1 id = countPairs m id + 1) := by
      rcases hcase0 with ⟨ht0, hp0⟩ | ⟨hpw, ht0, hp0⟩ | ⟨hpw, ht0, hp0⟩
      · left
        refine ⟨hp0, ?_⟩
        unfold countPairs
        rw [hp0]
      · exfalso
        have : alookup (set_current_page m info.page_num).1.tabs id =
            some ({ info with loading := true, page_num := info.page_num }) := by
          rw [ht0]
          exact alookup_aset_self _ _ _
        rw [this] at halk2
        injection halk2 with h2
        rw [← h2] at hg2
        simp at hg2
      · right
        refine ⟨hp0, ?_⟩
        unfold countPairs
        rw [hp0, List.countP_append]
        simp
    have hcrm0 : countCreates (set_current_page m info.page_num).1 id = countCreates m id := by
      rcases hm0pend with ⟨hp0, _⟩ | ⟨hp0, _⟩
      · unfold countCreates
        rw [hp0]
      · unfold countCreates
        rw [hp0, List.countP_append]
        simp
    rcases SL_LA_state _ id info2.page_num info2 halk2 hk2 hpl2 with
      ⟨hx, _⟩ | ⟨_, hx, _⟩ | ⟨_, _, hres⟩
    · rw [hx] at hl2; cases hl2
    · rw [hx] at hg2; cases hg2
    · refine ⟨?_, ?_, ?_⟩
      · rw [hEq]
        exact SL_LA_slot_self _ id info2.page_num info2 halk2 hk2 hpl2 hl2 hg2
      · rw [hEq, hres]
        rw [← hcrm0]
        unfold countCreates
        split
        · rw [List.countP_append]
          simp
        · rw [List.countP_append]
          simp
      · rw [hEq, hres]
        have hpairs : ∀ (m' : MW),
            m'.pending = (set_current_page m info.page_num).1.pending ++
              [Pending.create id info2.page_num] →
            countPairs m' id = countPairs (set_current_page m info.page_num).1 id := by
          intro m' hp
          unfold countPairs
          rw [hp, List.countP_append]
          simp
        rcases hm0pend with ⟨_, hcp⟩ | ⟨_, hcp⟩
        · split
          · rw [hpairs _ rfl, hcp]
            exact Nat.le_succ _
          · rw [hpairs _ rfl, hcp]
            exact Nat.le_succ _
        · split
          · rw [hpairs _ rfl, hcp]
          · rw [hpairs _ rfl, hcp]

/-- Firing a stale construction for an already-loaded slot consumes the
continuation and does nothing else: no factory run, no state change. -/
theorem create_on_loaded (m : MW) (id : String) (info : TabInfo) (i : Nat)
    (pg : Nat) (outcome : Option String) (hInv : Inv m)
    (hget : m.pending.get? i = some (Pending.create id pg))
    (halk : alookup m.tabs id = some info) (hl : info.loaded = true) :
    (step m (Step.fire i outcome)).1 = { m with pending := m.pending.eraseIdx i } ∧
    (step m (Step.fire i outcome)).2 = [] := by
  have hk := (inv_contract m id info hInv halk).1
  simp only [step, hget]
  rw [create_char { m with pending := m.pending.eraseIdx i } id outcome info halk hk]
  simp [hl]

/-- With the preferred-panel suppression active and a page that is not
the initial tab's, `on_tab_switch` changes nothing. -/
theorem OTS_prevent_blocked (m : MW) (page : Nat)
    (hprev : m.prevent_auto_loading = true)
    (hne : tabAt m page ≠ some m.initial_tab) :
    (on_tab_switch m page).1 = m := by
  have hcond : (m.prevent_auto_loading && decide (tabAt m page ≠ some m.initial_tab)) = true := by
    simp [hprev, hne]
  unfold on_tab_switch
  simp only [hcond, if_true]
  split <;> rfl

theorem create_prevent (m : MW) (id : String) (outcome : Option String) :
    (create_tab_content m id outcome).1.prevent_auto_loading = m.prevent_auto_loading := by
  simp only [create_tab_content]
  repeat' split
  all_goals rfl

theorem scp_prevent (m : MW) (page : Nat) :
    (set_current_page m page).1.prevent_auto_loading = m.prevent_auto_loading := by
  unfold set_current_page
  split
  · rfl
  · exact on_tab_switch_prevent m page

theorem click_prevent (m : MW) (id : String) :
    (clickLabel m id).1.prevent_auto_loading = m.prevent_auto_loading := by
  unfold clickLabel
  cases halk : alookup m.tabs id with
  | none => simp only [halk]
  | some info =>
      simp only [halk]
      cases halk2 : alookup (set_current_page m info.page_num).1.tabs id with
      | none =>
          simp only [halk2]
          exact scp_prevent m info.page_num
      | some info2 =>
          simp only [halk2]
          split
          · rw [load_async_prevent, show_loading_prevent]
            exact scp_prevent m info.page_num
          · exact scp_prevent m info.page_num

theorem switchTo_prevent (m : MW) (id : String) :
    (switch_to_tab m id).1.prevent_auto_loading = m.prevent_auto_loading := by
  unfold switch_to_tab
  cases halk : alookup m.tabs id with
  | none => simp only [halk]
  | some info =>
      simp only [halk]
      cases halk2 : alookup (set_current_page m info.page_num).1.tabs id with
      | none =>
          simp only [halk2]
          exact scp_prevent m info.page_num
      | some info2 =>
          simp only [halk2]
          split
          · rw [load_async_prevent, show_loading_prevent]
            exact scp_prevent m info.page_num
          · split
            · exact scp_prevent m info.page_num
            · exact scp_prevent m info.page_num

theorem step_prevent (m : MW) (s : Step) :
    (step m s).1.prevent_auto_loading = m.prevent_auto_loading := by
  cases s with
  | switchTo id => exact switchTo_prevent m id
  | click id => exact click_prevent m id
  | nbSwitch page =>
      simp only [step]
      exact on_tab_switch_prevent m page
  | fire i outcome =>
      simp only [step]
      cases hget : m.pending.get? i with
      | none => simp only [hget]
      | some ev =>
          simp only [hget]
          cases ev with
          | showAndLoad id pg =>
              rw [load_async_prevent, show_loading_prevent]
          | create id pg => rw [create_prevent]
          | guardReset => rfl

/-- A click on a loaded slot: registry, error map and queue unchanged,
and every effect is visual (the entrance animation of the emitted
switch handler and the page selection). -/
theorem click_loaded_visual (m : MW) (id : String) (info : TabInfo) (hInv : Inv m)
    (halk : alookup m.tabs id = some info) (hl : info.loaded = true) :
    (clickLabel m id).1.tabs = m.tabs ∧
    (clickLabel m id).1.errors = m.errors ∧
    (clickLabel m id).1.pending = m.pending ∧
    (clickLabel m id).2.all Fx.visual = true := by
  have hfind := find_load_none m hInv id info halk (Or.inl hl)
  have hSCP := SCP_noload_fields m info.page_num hfind
  have halk2 : alookup (set_current_page m info.page_num).1.tabs id = some info := by
    rw [hSCP.1]
    exact halk
  have hfx := SCP_fx_visual m info.page_num hfind
  unfold clickLabel
  simp only [halk, halk2]
  rw [if_neg (by simp [hl])]
  exact ⟨hSCP.1, hSCP.2.1, hSCP.2.2.1, hfx⟩

/-- `switch_to_tab` on a loaded slot: same invariance, with the
entrance animation appended. -/
theorem switchTo_loaded_visual (m : MW) (id : String) (info : TabInfo) (hInv : Inv m)
    (halk : alookup m.tabs id = some info) (hl : info.loaded = true) :
    (switch_to_tab m id).1.tabs = m.tabs ∧
    (switch_to_tab m id).1.errors = m.errors ∧
    (switch_to_tab m id).1.pending = m.pending ∧
    (switch_to_tab m id).2.all Fx.visual = true := by
  have hfind := find_load_none m hInv id info halk (Or.inl hl)
  have hSCP := SCP_noload_fields m info.page_num hfind
  have halk2 : alookup (set_current_page m info.page_num).1.tabs id = some info := by
    rw [hSCP.1]
    exact halk
  have hfx := SCP_fx_visual m info.page_num hfind
  unfold switch_to_tab
  simp only [halk, halk2]
  rw [if_neg (by simp [hl]), if_pos hl]
  refine ⟨hSCP.1, hSCP.2.1, hSCP.2.2.1, ?_⟩
  rw [List.all_append, List.all_append]
  have h1 : (if (decide (m.current_page ≠ info.page_num) && loadedAt m m.current_page) = true
      then [Fx.exitAnim m.current_page, Fx.schedule 200] else ([] : List Fx)).all Fx.visual = true := by
    split <;> rfl
  rw [h1, hfx]
  rfl

/-! The tab-lifecycle claims. -/

/-- C3 counterexample: a reachable execution exhibits the transition
`Failed → Loaded`, which is not among the specified edges.  One click on
the placeholder wifi tab schedules two constructions (the direct one
and the one from the synchronously emitted switch-page handler's
deferred pair); the first construction throws, leaving the slot
`Failed`, and the stale duplicate then succeeds, making it `Loaded`
without passing through `Loading`. -/
theorem C3_counterexample :
    Reachable c3m3 ∧
    slotState c3m3 "wifi" = SlotState.Failed ∧
    c3m4 = (step c3m3 (Step.fire 1 none)).1 ∧
    slotState c3m4 "wifi" = SlotState.Loaded ∧
    specEdge SlotState.Failed SlotState.Loaded = false := by
  refine ⟨?_, by decide, rfl, by decide, by decide⟩
  have h0 : Reachable twoTabs :=
    Reachable.init twoTabs ⟨["volume", "wifi"], "", by decide, by decide, rfl⟩
  have h1 : Reachable c4m1 := Reachable.next twoTabs (Step.click "wifi") h0
  have h2 : Reachable c4m2 := Reachable.next c4m1 (Step.fire 0 none) h1
  exact Reachable.next c4m2 (Step.fire 1 (some "factory threw")) h2

/-- C3 (amended): in every reachable execution each step either leaves
a slot's lifecycle state unchanged or moves it along one of the edges
`Placeholder→Loading`, `Loading→Loaded`, `Loading→Failed`,
`Failed→Loading` — or along the one extra edge `Failed→Loaded`, taken
when a stale duplicate construction succeeds on a failed slot. -/
theorem C3_amended_transitions (m : MW) (hR : Reachable m) (s : Step) (id : String) :
    okTrans (slotState m id) (slotState (step m s).1 id) :=
  trans_step m s (Reachable_inv m hR) id

/-- C3 witness: the amended transition theorem at a concrete reachable
state and step. -/
theorem C3_amended_witness :
    okTrans (slotState twoTabs "wifi")
      (slotState (step twoTabs (Step.click "wifi")).1 "wifi") :=
  C3_amended_transitions twoTabs
    (Reachable.init twoTabs ⟨["volume", "wifi"], "", by decide, by decide, rfl⟩)
    (Step.click "wifi") "wifi"

/-- C4 counterexample: a single `select` (one click on the placeholder
wifi tab, followed only by the firing of the timer it scheduled — no
further selects) leaves TWO pending construction requests for the slot,
refuting "exactly one construction request". -/
theorem C4_counterexample :
    Reachable c4m2 ∧
    slotState twoTabs "wifi" = SlotState.Placeholder ∧
    countCreates twoTabs "wifi" = 0 ∧
    c4m1 = (step twoTabs (Step.click "wifi")).1 ∧
    c4m2 = (step c4m1 (Step.fire 0 none)).1 ∧
    countCreates c4m2 "wifi" = 2 := by
  refine ⟨?_, by decide, by decide, rfl, rfl, by decide⟩
  have h0 : Reachable twoTabs :=
    Reachable.init twoTabs ⟨["volume", "wifi"], "", by decide, by decide, rfl⟩
  have h1 : Reachable c4m1 := Reachable.next twoTabs (Step.click "wifi") h0
  exact Reachable.next c4m1 (Step.fire 0 none) h1

/-- C4 (amended): duplicate selects coalesce, but one select can
schedule up to two construction requests.  In every reachable state:
a click while the slot is `Loading` changes nothing; a click while it
is `Placeholder` (or `Failed`) performs exactly one transition to
`Loading`, adds exactly one construction request directly and at most
one deferred pair (the source of the eventual duplicate); and a
construction fired for an already-loaded slot only consumes its queue
entry and runs no factory. -/
theorem C4_amended_single_load (m : MW) (id : String) (info : TabInfo)
    (hR : Reachable m) (halk : alookup m.tabs id = some info) :
    (info.loading = true → info.loaded = false →
      (clickLabel m id).1.tabs = m.tabs ∧
      (clickLabel m id).1.errors = m.errors ∧
      (clickLabel m id).1.pending = m.pending ∧
      (clickLabel m id).1.guard = m.guard) ∧
    (info.loaded = false → info.loading = false →
      slotState (clickLabel m id).1 id = SlotState.Loading ∧
      countCreates (clickLabel m id).1 id = countCreates m id + 1 ∧
      countPairs (clickLabel m id).1 id ≤ countPairs m id + 1) ∧
    (∀ i pg outcome, m.pending.get? i = some (Pending.create id pg) →
      info.loaded = true →
      (step m (Step.fire i outcome)).1 = { m with pending := m.pending.eraseIdx i } ∧
      (step m (Step.fire i outcome)).2 = []) := by
  have hInv := Reachable_inv m hR
  refine ⟨?_, ?_, ?_⟩
  · intro hg hl
    exact click_loading_noop m id info hInv halk hg hl
  · intro hl hg
    exact click_start m id info hInv halk hl hg
  · intro i pg outcome hget hl
    exact create_on_loaded m id info i pg outcome hInv hget halk hl

/-- C4 witness: the amended theorem at the two-tab start state. -/
theorem C4_amended_witness :
    ((({ page_num := 1, loaded := false, loading := false } : TabInfo).loading = true →
      ({ page_num := 1, loaded := false, loading := false } : TabInfo).loaded = false →
      (clickLabel twoTabs "wifi").1.tabs = twoTabs.tabs ∧
      (clickLabel twoTabs "wifi").1.errors = twoTabs.errors ∧
      (clickLabel twoTabs "wifi").1.pending = twoTabs.pending ∧
      (clickLabel twoTabs "wifi").1.guard = twoTabs.guard) ∧
    (({ page_num := 1, loaded := false, loading := false } : TabInfo).loaded = false →
      ({ page_num := 1, loaded := false, loading := false } : TabInfo).loading = false →
      slotState (clickLabel twoTabs "wifi").1 "wifi" = SlotState.Loading ∧
      countCreates (clickLabel twoTabs "wifi").1 "wifi" = countCreates twoTabs "wifi" + 1 ∧
      countPairs (clickLabel twoTabs "wifi").1 "wifi" ≤ countPairs twoTabs "wifi" + 1) ∧
    (∀ i pg outcome, twoTabs.pending.get? i = some (Pending.create "wifi" pg) →
      ({ page_num := 1, loaded := false, loading := false } : TabInfo).loaded = true →
      (step twoTabs (Step.fire i outcome)).1 =
        { twoTabs with pending := twoTabs.pending.eraseIdx i } ∧
      (step twoTabs (Step.fire i outcome)).2 = [])) :=
  C4_amended_single_load twoTabs "wifi" ({ page_num := 1, loaded := false, loading := false })
    (Reachable.init twoTabs ⟨["volume", "wifi"], "", by decide, by decide, rfl⟩)
    (by decide)

/-- C5: selecting an already-loaded slot — via `switch_to_tab` or the
tab-label click — leaves the registry, error map and continuation queue
unchanged (zero additional construction requests, and since external
commands are only issued by panel construction, zero additional command
invocations) and produces only visual effects: the visible swap with
its entrance/exit animations and page selection. -/
theorem C5_select_idempotent_on_loaded (m : MW) (id : String) (info : TabInfo)
    (hR : Reachable m) (halk : alookup m.tabs id = some info)
    (hl : info.loaded = true) :
    ((switch_to_tab m id).1.tabs = m.tabs ∧
     (switch_to_tab m id).1.errors = m.errors ∧
     (switch_to_tab m id).1.pending = m.pending ∧
     (switch_to_tab m id).2.all Fx.visual = true) ∧
    ((clickLabel m id).1.tabs = m.tabs ∧
     (clickLabel m id).1.errors = m.errors ∧
     (clickLabel m id).1.pending = m.pending ∧
     (clickLabel m id).2.all Fx.visual = true) :=
  ⟨switchTo_loaded_visual m id info (Reachable_inv m hR) halk hl,
   click_loaded_visual m id info (Reachable_inv m hR) halk hl⟩

/-- C5 witness: the idempotence theorem at a concrete reachable state
whose wifi slot is loaded. -/
theorem C5_witness :
    ((switch_to_tab c5m "wifi").1.tabs = c5m.tabs ∧
     (switch_to_tab c5m "wifi").1.errors = c5m.errors ∧
     (switch_to_tab c5m "wifi").1.pending = c5m.pending ∧
     (switch_to_tab c5m "wifi").2.all Fx.visual = true) ∧
    ((clickLabel c5m "wifi").1.tabs = c5m.tabs ∧
     (clickLabel c5m "wifi").1.errors = c5m.errors ∧
     (clickLabel c5m "wifi").1.pending = c5m.pending ∧
     (clickLabel c5m "wifi").2.all Fx.visual = true) := by
  have h0 : Reachable twoTabs :=
    Reachable.init twoTabs ⟨["volume", "wifi"], "", by decide, by decide, rfl⟩
  have h1 : Reachable c4m1 := Reachable.next twoTabs (Step.click "wifi") h0
  have h2 : Reachable c4m2 := Reachable.next c4m1 (Step.fire 0 none) h1
  have h3 : Reachable c5m := Reachable.next c4m2 (Step.fire 1 none) h2
  exact C5_select_idempotent_on_loaded c5m "wifi"
    ({ page_num := 1, loaded := true, loading := false }) h3 (by decide) (by decide)

/-- C7 counterexample: with the initial tab "wifi", after the user has
explicitly interacted with the notebook (clicking and loading the
volume tab), a selection event for the display page still triggers no
loading: the suppression flag is never cleared, so "loading of other
panels is possible again" fails for selection events. -/
theorem C7_counterexample :
    Reachable c7m5 ∧
    c7m5.prevent_auto_loading = true ∧
    slotState c7m5 "volume" = SlotState.Loaded ∧
    c7m6 = (step c7m5 (Step.nbSwitch 2)).1 ∧
    slotState c7m6 "display" = SlotState.Placeholder ∧
    c7m6.pending = c7m5.pending := by
  refine ⟨?_, by decide, by decide, rfl, by decide, by decide⟩
  have h0 : Reachable c7m0 :=
    Reachable.init c7m0 ⟨["volume", "wifi", "display"], "wifi", by decide, by decide, rfl⟩
  have h1 : Reachable c7m1 := Reachable.next c7m0 (Step.switchTo "wifi") h0
  have h2 : Reachable c7m2 := Reachable.next c7m1 (Step.fire 0 none) h1
  have h3 : Reachable c7m3 := Reachable.next c7m2 (Step.fire 1 none) h2
  have h4 : Reachable c7m4 := Reachable.next c7m3 (Step.click "volume") h3
  exact Reachable.next c7m4 (Step.fire 2 none) h4

/-- C7 (amended): the preferred-panel suppression is permanent — no
step ever clears `prevent_auto_loading_` — and while it is set, a
switch-page event for any page other than the initial tab's changes no
state; panels other than the initial one load only through explicit
tab-label clicks, which are always honoured (a click on a placeholder
slot starts its load). -/
theorem C7_amended_suppression (m : MW) (page : Nat) (id : String) (info : TabInfo)
    (s : Step) (hR : Reachable m) :
    (step m s).1.prevent_auto_loading = m.prevent_auto_loading ∧
    (m.prevent_auto_loading = true → tabAt m page ≠ some m.initial_tab →
      (step m (Step.nbSwitch page)).1.tabs = m.tabs ∧
      (step m (Step.nbSwitch page)).1.pending = m.pending ∧
      (step m (Step.nbSwitch page)).1.errors = m.errors) ∧
    (alookup m.tabs id = some info → info.loaded = false → info.loading = false →
      slotState (clickLabel m id).1 id = SlotState.Loading ∧
      countCreates (clickLabel m id).1 id = countCreates m id + 1) := by
  refine ⟨step_prevent m s, ?_, ?_⟩
  · intro hprev hne
    simp only [step]
    rw [OTS_prevent_blocked m page hprev hne]
    exact ⟨rfl, rfl, rfl⟩
  · intro halk hl hg
    obtain ⟨h1, h2, _⟩ := click_start m id info (Reachable_inv m hR) halk hl hg
    exact ⟨h1, h2⟩

/-- C7 witness: the suppression theorem at the freshly constructed
three-tab window with initial tab "wifi". -/
theorem C7_amended_witness :
    ((step c7m0 (Step.nbSwitch 2)).1.prevent_auto_loading = c7m0.prevent_auto_loading ∧
    (c7m0.prevent_auto_loading = true → tabAt c7m0 2 ≠ some c7m0.initial_tab →
      (step c7m0 (Step.nbSwitch 2)).1.tabs = c7m0.tabs ∧
      (step c7m0 (Step.nbSwitch 2)).1.pending = c7m0.pending ∧
      (step c7m0 (Step.nbSwitch 2)).1.errors = c7m0.errors) ∧
    (alookup c7m0.tabs "volume" =
        some ({ page_num := 0, loaded := false, loading := false }) →
      ({ page_num := 0, loaded := false, loading := false } : TabInfo).loaded = false →
      ({ page_num := 0, loaded := false, loading := false } : TabInfo).loading = false →
      slotState (clickLabel c7m0 "volume").1 "volume" = SlotState.Loading ∧
      countCreates (clickLabel c7m0 "volume").1 "volume" =
        countCreates c7m0 "volume" + 1)) :=
  C7_amended_suppression c7m0 2 "volume"
    ({ page_num := 0, loaded := false, loading := false }) (Step.nbSwitch 2)
    (Reachable.init c7m0 ⟨["volume", "wifi", "display"], "wifi", by decide, by decide, rfl⟩)

end UltimateControl
